import Mathlib

/-
Verification development for the dqe-map battle-card generator.

The Python sources (battlecard_config.py, battlecard_llm.py,
battlecard_processor.py, battlecard_storage.py) are shallowly embedded:

* CSV rows and the extracted "EY" / "ConnectBase" sections are association
  lists of strings (`StrDict`), with `dict.get(k, default)` modelled by
  `sGet` and a raising `d[k]` access modelled by `dict_subscript` in the
  `Except String` monad.
* JSON values (the scoring responses, geocode bodies and battle-card
  analysis payloads) are an inductive `Json` type; Python's raising
  subscript `j[k]` is `subscript`.
* The external collaborators (the generation service, `json.loads`, and the
  HTTP geocoding endpoint) are parameters: a `GenEnv` record and an
  `HttpOutcome` oracle.  Thread-pool completion order is a parameter list
  `completion_order`, constrained in the theorems to be a permutation of
  the submitted `(index, row)` tasks.
* Exceptions are `Except String`; a Python `try/except` block is a `match`
  on the embedded body's result.
-/

/-- Python-style string dictionary: association list, first binding wins. -/
abbrev StrDict := List (String × String)

/-- Models Python `d.get(k, default)` on a string dictionary. -/
def sGet (d : StrDict) (k : String) (default : String) : String :=
  (d.lookup k).getD default

/-- Models Python `d[k]` on a string dictionary: `KeyError` when absent. -/
def dict_subscript (d : StrDict) (k : String) : Except String String :=
  match d.lookup k with
  | some v => .ok v
  | none => .error ("KeyError: " ++ k)

/-- JSON values, as produced by `json.loads` and handed around as Python
dicts/lists/numbers/strings.  Numbers are exact rationals. -/
inductive Json where
  | null : Json
  | bool : Bool → Json
  | num : Rat → Json
  | str : String → Json
  | arr : List Json → Json
  | obj : List (String × Json) → Json

/-- Non-raising key lookup on a JSON value: `none` when the value is not an
object or the key is absent. -/
def Json.get : Json → String → Option Json
  | .obj fs, k => fs.lookup k
  | _, _ => none

/-- Models Python's raising subscript `j[k]`: `KeyError` on a dict without
the key, `TypeError` on a non-dict. -/
def subscript (j : Json) (k : String) : Except String Json :=
  match j with
  | .obj fs =>
    match fs.lookup k with
    | some v => .ok v
    | none => .error ("KeyError: " ++ k)
  | _ => .error ("TypeError: value is not subscriptable at key " ++ k)

/-- Python truthiness of a JSON value. -/
def Json.truthy : Json → Bool
  | .null => false
  | .bool b => b
  | .num q => q != 0
  | .str s => s != ""
  | .arr xs => !xs.isEmpty
  | .obj fs => !fs.isEmpty

/-- Python numbers: JSON numbers are themselves, booleans count as 0/1
(Python `bool` is an `int`), everything else raises `TypeError` when used
in arithmetic or comparison with a number. -/
def as_py_number : Json → Except String Rat
  | .num q => .ok q
  | .bool b => .ok (if b then 1 else 0)
  | _ => .error "TypeError: not a number"

/- ===== battlecard_config.py ===== -/

/-- Embeds `get_research_prompt` from battlecard_config.py. -/
def get_research_prompt (business_name address city state
    ey_employees cb_employees cb_linkedin : String) : String :=
  "Search for and research the following business:
Name: " ++ business_name ++ "
Address: " ++ address ++ ", " ++ city ++ ", " ++ state ++ "
EY Employee Count: " ++ ey_employees ++ "
ConnectBase Employee Count: " ++ cb_employees ++ "
ConnectBase LinkedIn: " ++ cb_linkedin ++ "

CRITICAL: Focus on RECENT data from 2024-2026 only. Prioritize:
1. LinkedIn company page and employee profiles (check for recent activity in 2024-2026)
2. Company website (verify this location is still listed)
3. Recent news articles or press releases (2024-2026)
4. Google Maps/Business listings with recent reviews (2024-2026)
5. Recent social media activity

IGNORE data older than 2024 unless no recent data exists. Data from 2022-2023 should be considered potentially outdated.

Provide a detailed report on:
1. Current operating status at this location (is business still active HERE in 2025-2026?)
   - Check LinkedIn for recent employee posts from this location
   - Check Google Maps for recent reviews/photos
   - Verify company website lists this address currently

2. Best estimate of employee count for THIS SPECIFIC LOCATION at " ++ address ++ ", " ++ city ++ ", " ++ state ++ "
   - Look for LinkedIn employee counts at THIS specific office (recent data)
   - Check recent company announcements or news
   - If only company-wide data available, estimate this location\x27s share

3. Business type, vertical, and infrastructure/connectivity needs

4. This location\x27s potential company footprint (e.g. headquarters, regional office, branch, etc.)

Focus on validating the employee count for THIS SPECIFIC OFFICE and confirming business is CURRENTLY ACTIVE (2025-2026) at this address.

BE SKEPTICAL of data from 2022-2023. Businesses move, close, or restructure frequently.
"

/-- The `connectbase_section` string of `get_analysis_prompt` when
ConnectBase data is present. -/
def connectbase_section_present (connectbase_data : StrDict)
    (dqe_distance dqe_connection dqe_network_status : String) : String :=
  "
CONNECTBASE DATA:
- CB Entity Name: " ++ sGet connectbase_data "API_EntityName" "N/A" ++ "
- CB Employee Count: " ++ sGet connectbase_data "API_NoOfEmployees" "N/A" ++ "
- CB Industry: " ++ sGet connectbase_data "API_Industry" "N/A" ++ "
- CB Location Type: " ++ sGet connectbase_data "API_LocationType" "N/A" ++ "
- CB LinkedIn: " ++ sGet connectbase_data "API_LinkedIn" "N/A" ++ "
- CB Revenue: " ++ sGet connectbase_data "API_Revenue" "N/A" ++ "
- CB Monthly Network Spend: " ++ sGet connectbase_data "API_MonthlyNetworkSpend" "N/A" ++ "

DQE NETWORK INTELLIGENCE:
- DQE Site Distance: " ++ dqe_distance ++ " feet (distance to nearest DQE fiber)
- DQE Connection Status: " ++ dqe_connection ++ "
- DQE Network Status: " ++ dqe_network_status ++ "
- Competitors at Site: " ++ sGet connectbase_data "SITE_All_Competitors" "N/A" ++ "
"

/-- The `connectbase_section` string of `get_analysis_prompt` when no
ConnectBase data is available. -/
def connectbase_section_absent : String :=
  "
CONNECTBASE DATA:
⚠️  No ConnectBase data available for this location.

DQE NETWORK INTELLIGENCE:
- Not available without ConnectBase data

NOTE: You must rely entirely on EY data and your web research for this analysis.
Focus extra effort on validating the business and finding employee count data.
"

/-- The instruction line that, absent ConnectBase data, tells the model to
present NO_DATA/unknown for network-dependent fields instead of fabricating
them (the else-branch of the second-to-last CRITICAL PRINCIPLES bullet). -/
def no_network_data_directive : String :=
  "Without DQE distance data, default to \x27NO_DATA\x27 and \x27unknown\x27 for network fields"

/-- The has-ConnectBase branch of the same CRITICAL PRINCIPLES bullet. -/
def dqe_distance_directive : String :=
  "Use DQE Site Distance to determine on-net vs near-net status"

/-- Everything of the `get_analysis_prompt` template before the
NO_DATA/distance directive bullet. -/
def analysis_prompt_head (research_text business_name address city state
    ey_employees connectbase_section : String) (has_connectbase : Bool) : String :=
  "
RESEARCH DATA FOUND:
" ++ research_text ++ "

---
You are a sales intelligence analyst for DQE Communications, a fiber-optic telecommunications provider.

IMPORTANT: Today is February 2026. Only trust data from 2024-2026 as \"recent\" or \"current\".
Data from 2022-2023 should be considered potentially outdated for business operating status.

The best companies for you are companies that would have a mission critical need for fast, reliable internet services.

TASK: Score this business on two dimensions: data confidence and ICP fit.

BUSINESS DETAILS FROM EY:
- Business Name: " ++ business_name ++ "
- Address: " ++ address ++ ", " ++ city ++ ", " ++ state ++ "
- EY Employee Count: " ++ ey_employees ++ "

" ++ connectbase_section ++ "

SCORING METHODOLOGY:

COMPONENT 1: DATA CONFIDENCE SCORE (0.0 - 1.0 multiplier)
How confident are we that our data is accurate for THIS specific location?

A. Business Operating Status (0.0 - 0.40):
   - 0.40: Confirmed active at this address with RECENT evidence (2024-2026: LinkedIn activity, website, news, Google reviews)
   - 0.30: Strong indicators of recent activity (LinkedIn employees at location, recent reviews/posts from 2024-2026)
   - 0.20: Appears active but only older evidence (2022-2023 data, unclear if still current)
   - 0.10: Uncertain - only very old data (pre-2022) or conflicting signals
   - 0.00: Clear evidence of closure, move, or address mismatch

B. Employee Count Validation for THIS Location (0.0 - 0.40):
   " ++ (if has_connectbase then "Compare EY vs ConnectBase vs your research for THIS SPECIFIC OFFICE:" else "Use EY data and your research to validate employee count for THIS SPECIFIC OFFICE:") ++ "
   - 0.40: Multiple sources align within ±10 employees, confident this is location-specific
   - 0.30: Sources generally agree (±25 employees), likely accurate for this location
   - 0.20: Moderate agreement OR only company-wide data (must estimate location split)
   - 0.10: Significant discrepancies OR company-wide only with unclear allocation
   - 0.00: Cannot validate employee presence or major data conflicts

C. Source Quality & Data Recency (0.0 - 0.20):
   - 0.20: Multiple authoritative sources from 2024-2026 (LinkedIn, filings, recent announcements, company website)
   - 0.15: Reliable sources but single-source dependent or mix of recent/older data
   - 0.10: Limited sources or most data from 2022-2023
   - 0.05: Data appears stale (pre-2022) or contradictory
   - 0.00: No reliable data sources

CONFIDENCE SCORE = A + B + C (max 1.0)

COMPONENT 2: ICP FIT SCORE (0-100 points)
If the data IS accurate, how valuable is this customer?

A. Network Economics (0-20 points):
   " ++ (if has_connectbase then "Based on DQE Site Distance and connection status:" else "Without network data, use conservative estimates:") ++ "

   " ++ (if has_connectbase then "- 20 pts: On-net (distance = 0 or Connection Status indicates \x27on-net\x27 or \x27connected\x27)" else "- 10 pts: Network proximity unknown - assume moderate build cost") ++ "
   " ++ (if has_connectbase then "- 10 pts: Near-net (distance > 0, any distance showing near-net status)" else "") ++ "
   " ++ (if has_connectbase then "- 0 pts: Not near DQE network or NOT_FOUND" else "") ++ "

   " ++ (if has_connectbase then "NOTE: On-net prospects have zero build cost advantage, but business characteristics drive overall fit." else "NOTE: Without network data, focus scoring on business characteristics.") ++ "

B. Business Scale & Infrastructure Need (0-80 points):
   Combine validated employee count with business criticality:

   HIGH-CRITICALITY businesses (need dedicated fiber/DIA):
   - Technology, data centers, financial services, healthcare facilities
   - Legal/accounting firms, engineering, media/production companies
   - Businesses with real-time data needs, cloud infrastructure, distributed teams
   - Government, research facilities, higher education

   MODERATE-CRITICALITY businesses:
   - General corporate offices, professional services
   - Standard business operations needing reliable connectivity

   LOW-CRITICALITY businesses (unlikely to need DIA):
   - Retail, food service, personal services, residential
   - Small consumer-facing businesses with minimal data needs

   SCORING:
   - 80 pts: 100+ employees AND high-criticality business
   - 60 pts: 50-99 employees AND high-criticality OR 100+ moderate-criticality
   - 40 pts: 25-49 high-criticality OR 50-99 moderate-criticality
   - 25 pts: 25-49 moderate-criticality OR 10-24 high-criticality
   - 15 pts: 10-24 moderate-criticality OR small high-criticality
   - 5 pts: Small office (1-9 employees) but high-criticality
   - 0 pts: Low-criticality business type unlikely to need dedicated fiber

ICP FIT SCORE = Network Economics + Business Scale & Need (max 100)

FINAL SCORE = Data Confidence × ICP Fit Score

Example Calculations:
- Confidence: 0.85, ICP: 80 → Final Score: 68
- Confidence: 0.50, ICP: 90 → Final Score: 45 (good opportunity but uncertain data)
- Confidence: 0.95, ICP: 25 → Final Score: 24 (confident it\x27s not a good fit)
- Confidence: 0.30, ICP: 60 → Final Score: 18 (too uncertain to pursue)

OUTPUT FORMAT (strict JSON):
\x7b
  \"overall_score\": <0-100, calculated as confidence_score × icp_fit_score>,

  \"data_confidence\": \x7b
    \"confidence_score\": <0.0-1.0>,
    \"business_status_points\": <0.0-0.40>,
    \"employee_validation_points\": <0.0-0.40>,
    \"source_quality_points\": <0.0-0.20>,

    \"business_status\": \"<operating|closed|moved|uncertain>\",
    \"business_status_evidence\": \"<key evidence for status determination>\",

    \"validated_employee_count\": <number or null>,
    \"employee_count_confidence\": \"<high|medium|low>\",
    \"employee_count_basis\": \"<location-specific or company-wide estimate>\",
    \"employee_count_sources\": [\"source1\", \"source2\"],
    \"employee_comparison\": \"<EY: X, CB: Y, Validated: Z, differences explained>\",

    \"location_type\": \"<headquarters|regional_office|branch_office|unclear>\",
    \"data_quality_notes\": \"<key concerns or validation details>\"
  \x7d,

  \"icp_fit\": \x7b
    \"icp_fit_score\": <0-100>,
    \"network_economics_points\": <0-20>,
    \"business_scale_need_points\": <0-80>,

    \"network_analysis\": \x7b
      \"dqe_distance_feet\": <number or \"NOT_FOUND\" or \"NO_DATA\">,
      \"network_category\": \"<on_net|near_net|not_near_net|not_found|no_data>\",
      \"build_cost_assessment\": \"<zero|low|moderate|high|not_viable|unknown>\",
      \"network_advantage\": \"<why DQE is well-positioned or challenges>\"
    \x7d,

    \"business_assessment\": \x7b
      \"business_criticality\": \"<high|moderate|low>\",
      \"criticality_reasoning\": \"<why this business type needs/doesn\x27t need dedicated fiber>\",
      \"infrastructure_needs\": [\"need1\", \"need2\", \"need3\"],
      \"bandwidth_requirements\": \"<high|moderate|low>\",
      \"estimated_monthly_spend\": <number or null>
    \x7d,

    \"competitive_context\": \x7b
      \"competitors_at_site\": \"<list from SITE_All_Competitors or \x27Unknown - no network data\x27>\",
      \"competitive_position\": \"<DQE advantage or disadvantages or \x27Unknown without network data\x27>\"
    \x7d,

    \"icp_fit_summary\": \"<2-3 sentences on overall fit>\"
  \x7d,

  \"sales_intelligence\": \x7b
    \"priority_level\": \"<immediate|high|medium|low|disqualify>\",
    \"priority_reasoning\": \"<explain priority based on final score: confidence × ICP" ++ (if !has_connectbase then " and note lack of network data" else "") ++ ">\",

    \"key_selling_points\": [\"point1\", \"point2\", \"point3\"],
    \"likely_pain_points\": [\"pain1\", \"pain2\"],
    \"competitive_angles\": [\"angle1\", \"angle2\"],

    \"data_gaps_to_resolve\": [\"what sales should validate before outreach\"],
    \"recommended_approach\": \"<specific approach based on confidence and opportunity>\",
    \"recommended_services\": [\"DIA\", \"SD-WAN\", \"Managed Security\", \"etc\"],
    \"next_best_actions\": [\"action1\", \"action2\", \"action3\"]
  \x7d
\x7d

CRITICAL PRINCIPLES:
- Final score naturally reflects reality: high confidence + high ICP = high score
- Low confidence suppresses scores even for great opportunities (need validation first)
- High confidence about non-ICP businesses = low scores (confident they\x27re not a fit)
- " ++ (if has_connectbase then "On-net with validated data and strong ICP fit should score 70-95 range" else "Without network data, scores will be lower (max ~60-70) due to unknown build costs") ++ "
- "

/-- Everything of the `get_analysis_prompt` template after the
NO_DATA/distance directive bullet. -/
def analysis_prompt_tail (has_connectbase : Bool) : String :=
  "
- Be realistic about employee counts - many won\x27t have location-specific data
- Focus on business types and scale that need dedicated fiber connectivity
- Prioritize recent data (2024-2026) when assessing business status and confidence
- " ++ (if has_connectbase then "NOT_FOUND or not near DQE network should score low on network economics" else "Without network data, adjust expectations - even good prospects will have moderate scores") ++ "

Return ONLY valid JSON, no additional text.
"

/-- Embeds `get_analysis_prompt` from battlecard_config.py. -/
def get_analysis_prompt (research_text business_name address city state : String)
    (ey_data connectbase_data : StrDict) : String :=
  let ey_employees := sGet ey_data "No Of Employees" "N/A"
  let dqe_distance := sGet connectbase_data "DQE_Site_Distance" "N/A"
  let dqe_connection := sGet connectbase_data "DQE_Connection_Status" "N/A"
  let dqe_network_status := sGet connectbase_data "DQE_Network_Status" "N/A"
  let has_connectbase := sGet connectbase_data "API_EntityName" "N/A" != "N/A"
  let connectbase_section :=
    if has_connectbase then
      connectbase_section_present connectbase_data dqe_distance dqe_connection dqe_network_status
    else
      connectbase_section_absent
  analysis_prompt_head research_text business_name address city state
      ey_employees connectbase_section has_connectbase
    ++ (if has_connectbase then dqe_distance_directive else no_network_data_directive)
    ++ analysis_prompt_tail has_connectbase

/- ===== battlecard_llm.py ===== -/

/-- The `usage_metadata` attribute of a generation response; each token
count is read with `getattr(usage, field, 0)`. -/
structure UsageMetadata where
  prompt_token_count : Option Nat
  candidates_token_count : Option Nat

/-- A generation-service response: generated text plus the optional
`usage_metadata` attribute (absent when `hasattr` is false). -/
structure GenResponse where
  text : String
  usage_metadata : Option UsageMetadata

/-- A `GenerateContentConfig`: sampling parameters, output bounds and the
optional web-search tool grant. -/
structure GenConfig where
  temperature : Rat
  top_p : Option Rat
  top_k : Option Nat
  max_output_tokens : Option Nat
  response_mime_type : Option String
  has_google_search_tool : Bool

/-- `self.research_config`: temperature 1.0 with the Google-search tool. -/
def research_config : GenConfig :=
  { temperature := 1, top_p := none, top_k := none, max_output_tokens := none,
    response_mime_type := none, has_google_search_tool := true }

/-- `self.formatting_config`: temperature 0.2, top_p 0.8, top_k 40,
max_output_tokens 8192, JSON response mode. -/
def formatting_config : GenConfig :=
  { temperature := 2/10, top_p := some (8/10), top_k := some 40,
    max_output_tokens := some 8192, response_mime_type := some "application/json",
    has_google_search_tool := false }

/-- The mutable token totals of a `BattleCardLLM` instance
(`total_input_tokens` / `total_output_tokens`), updated only inside the
`_token_lock` critical section. -/
structure LLMState where
  total_input_tokens : Nat
  total_output_tokens : Nat
deriving DecidableEq

/-- Embeds `BattleCardLLM._track_tokens`: one lock-protected accumulation
of the response's token counts into the running totals.  A response without
`usage_metadata` contributes nothing; absent count attributes default to 0. -/
def track_tokens (st : LLMState) (response : GenResponse) : LLMState :=
  match response.usage_metadata with
  | none => st
  | some usage =>
    { total_input_tokens := st.total_input_tokens + usage.prompt_token_count.getD 0,
      total_output_tokens := st.total_output_tokens + usage.candidates_token_count.getD 0 }

/-- The input tokens a single response contributes to the running totals. -/
def response_input_tokens (response : GenResponse) : Nat :=
  match response.usage_metadata with
  | none => 0
  | some usage => usage.prompt_token_count.getD 0

/-- The output tokens a single response contributes to the running totals. -/
def response_output_tokens (response : GenResponse) : Nat :=
  match response.usage_metadata with
  | none => 0
  | some usage => usage.candidates_token_count.getD 0

/-- External collaborators of `BattleCardLLM.analyze_prospect`: the
generation service (`client.models.generate_content`, which may raise) and
the JSON decoder (`json.loads`, which may raise `JSONDecodeError`). -/
structure GenEnv where
  generate_content : String → GenConfig → Except String GenResponse
  json_loads : String → Except String Json

/-- Embeds `BattleCardLLM._create_fallback_analysis`. -/
def create_fallback_analysis (error : String) : Json :=
  .obj [
    ("overall_score", .num 0),
    ("data_confidence", .obj [
      ("confidence_score", .num 0),
      ("business_status_points", .num 0),
      ("employee_validation_points", .num 0),
      ("source_quality_points", .num 0),
      ("business_status", .str "unknown"),
      ("business_status_evidence", .str "Error during validation"),
      ("validated_employee_count", .null),
      ("employee_count_confidence", .str "none"),
      ("employee_count_basis", .str "validation failed"),
      ("employee_count_sources", .arr []),
      ("employee_comparison", .str "N/A"),
      ("location_type", .str "unknown"),
      ("data_quality_notes", .str ("Error: " ++ error))]),
    ("icp_fit", .obj [
      ("icp_fit_score", .num 0),
      ("network_economics_points", .num 0),
      ("business_scale_need_points", .num 0),
      ("network_analysis", .obj [
        ("dqe_distance_feet", .str "ERROR"),
        ("network_category", .str "unknown"),
        ("build_cost_assessment", .str "unknown"),
        ("network_advantage", .str "Unable to assess")]),
      ("business_assessment", .obj [
        ("business_criticality", .str "unknown"),
        ("criticality_reasoning", .str "Unable to assess"),
        ("infrastructure_needs", .arr []),
        ("bandwidth_requirements", .str "unknown"),
        ("estimated_monthly_spend", .null)]),
      ("competitive_context", .obj [
        ("competitors_at_site", .str "N/A"),
        ("competitive_position", .str "Unable to assess")]),
      ("icp_fit_summary", .str "Unable to assess due to validation failure")]),
    ("sales_intelligence", .obj [
      ("priority_level", .str "disqualify"),
      ("priority_reasoning", .str "Data validation failed"),
      ("key_selling_points", .arr []),
      ("likely_pain_points", .arr []),
      ("competitive_angles", .arr []),
      ("data_gaps_to_resolve", .arr [.str "Complete data validation required"]),
      ("recommended_approach", .str "Unable to provide recommendation"),
      ("recommended_services", .arr []),
      ("next_best_actions", .arr [.str "Retry data enrichment"])])]

/-- The code-fence stripping applied to the scoring response before
`json.loads` (the `response_text` post-processing in `analyze_prospect`). -/
def extract_json_text (raw : String) : String :=
  let response_text := raw.trim
  if response_text.startsWith "```json" then
    (((response_text.replace "```json" "").replace "```" "").trim)
  else if response_text.startsWith "```" then
    ((response_text.replace "```" "").trim)
  else response_text

/-- The subscript accesses and the `f"{confidence:.2f}"` formatting that the
success path of `analyze_prospect` performs on the decoded JSON before
returning it; any of them raising sends the invocation to the fallback. -/
def validate_scoring_output (llm_analysis : Json) : Except String Unit := do
  let _score ← subscript llm_analysis "overall_score"
  let dc ← subscript llm_analysis "data_confidence"
  let confidence ← subscript dc "confidence_score"
  let icp ← subscript llm_analysis "icp_fit"
  let _icp_score ← subscript icp "icp_fit_score"
  let dc2 ← subscript llm_analysis "data_confidence"
  let _validated_emp ← subscript dc2 "validated_employee_count"
  match confidence with
  | .num _ => pure ()
  | .bool _ => pure ()
  | _ => .error "ValueError: Unknown format code f"
  let si ← subscript llm_analysis "sales_intelligence"
  let _priority ← subscript si "priority_level"
  pure ()

/-- Embeds `BattleCardLLM.analyze_prospect`: research pass, scoring pass,
fence stripping, JSON decode and the success-path key accesses, with every
raised exception converted to `create_fallback_analysis`.  Returns the
analysis together with the updated token totals. -/
def analyze_prospect (env : GenEnv) (st : LLMState)
    (ey_data connectbase_data : StrDict) : Json × LLMState :=
  let business_name := sGet ey_data "Name" "Unknown"
  let address := sGet ey_data "Address" ""
  let city := sGet ey_data "City" ""
  let state := sGet ey_data "State" ""
  let ey_employees := sGet ey_data "No Of Employees" "N/A"
  let cb_employees := sGet connectbase_data "API_NoOfEmployees" "N/A"
  let cb_linkedin := sGet connectbase_data "API_LinkedIn" "N/A"
  let research_prompt := get_research_prompt business_name address city state
    ey_employees cb_employees cb_linkedin
  match env.generate_content research_prompt research_config with
  | .error e => (create_fallback_analysis e, st)
  | .ok research_resp =>
    let research_text := research_resp.text
    let st1 := track_tokens st research_resp
    let analysis_prompt := get_analysis_prompt research_text business_name
      address city state ey_data connectbase_data
    match env.generate_content analysis_prompt formatting_config with
    | .error e => (create_fallback_analysis e, st1)
    | .ok format_resp =>
      let st2 := track_tokens st1 format_resp
      let response_text := extract_json_text format_resp.text
      match env.json_loads response_text with
      | .error e => (create_fallback_analysis e, st2)
      | .ok llm_analysis =>
        match validate_scoring_output llm_analysis with
        | .error e => (create_fallback_analysis e, st2)
        | .ok _ => (llm_analysis, st2)

/- ===== battlecard_processor.py ===== -/

/-- Embeds `BattleCardProcessor._extract_ey_data`. -/
def extract_ey_data (row : StrDict) : StrDict :=
  [("Name", sGet row "Name" ""),
   ("Address", sGet row "Address" ""),
   ("City", sGet row "City" ""),
   ("State", sGet row "State" ""),
   ("Zipcode", sGet row "Zipcode" ""),
   ("Bandwidth", sGet row "Bandwitdh ( DIA or Broadband)" ""),
   ("Prediction", sGet row "Prediction" ""),
   ("Direct or Wholesale Prediction", sGet row "Direct or Wholesale Prediction" ""),
   ("DQE ICP Focus", sGet row "DQE ICP Focus" ""),
   ("Provider And Connectivity", sGet row "Provider And Connectivity" ""),
   ("Website", sGet row "Website" ""),
   ("Phone", sGet row "Phone" ""),
   ("LinkedIn Url", sGet row "LinkedIn Url" ""),
   ("No Of Employees", sGet row "No Of Employees" ""),
   ("Est Telco Spend", sGet row "Est Telco Spend" ""),
   ("Network Build Status", sGet row "Network Build Status" ""),
   ("Building Connection Status", sGet row "Building Connection Status" ""),
   ("Building Category", sGet row "Building Category" ""),
   ("Access Medium", sGet row "Access Medium" ""),
   ("Supplier Name", sGet row "Supplier Name" ""),
   ("Global Location ID", sGet row "Global Location ID" "")]

/-- Embeds `BattleCardProcessor._extract_connectbase_data`. -/
def extract_connectbase_data (row : StrDict) : StrDict :=
  [("API_EntityName", sGet row "API_EntityName" "N/A"),
   ("API_Website", sGet row "API_Website" "N/A"),
   ("API_Phone", sGet row "API_Phone" "N/A"),
   ("API_LinkedIn", sGet row "API_LinkedIn" "N/A"),
   ("API_NoOfEmployees", sGet row "API_NoOfEmployees" "N/A"),
   ("API_MonthlyNetworkSpend", sGet row "API_MonthlyNetworkSpend" "N/A"),
   ("API_Revenue", sGet row "API_Revenue" "N/A"),
   ("API_Industry", sGet row "API_Industry" "N/A"),
   ("API_FoundedYear", sGet row "API_FoundedYear" "N/A"),
   ("API_LocationType", sGet row "API_LocationType" "N/A"),
   ("API_LocationCount", sGet row "API_LocationCount" "N/A"),
   ("DQE_Site_Distance", sGet row "DQE_Site_Distance" "N/A"),
   ("DQE_Connection_Status", sGet row "DQE_Connection_Status" "N/A"),
   ("DQE_Access_Medium", sGet row "DQE_Access_Medium" "N/A"),
   ("DQE_Network_Status", sGet row "DQE_Network_Status" "N/A"),
   ("SITE_All_Competitors", sGet row "SITE_All_Competitors" "N/A")]

/-- Embeds `BattleCardProcessor._extract_additional_tenants`. -/
def extract_additional_tenants (row : StrDict) : List String :=
  let additional_tenants_str := sGet row "API_Additional_Tenants" "N/A"
  if additional_tenants_str != "N/A" && additional_tenants_str != "" then
    (additional_tenants_str.splitOn ",").map (·.trim)
  else
    []

/-- Outcome of the `requests.get` call inside `_geocode_address`: either the
call raised, or it produced a response with an HTTP status code and a body
whose `.json()` decoding may itself raise. -/
inductive HttpOutcome where
  | exn : String → HttpOutcome
  | resp : Nat → Except String Json → HttpOutcome

/-- The dict `_geocode_address` returns on HTTP 200 with an empty (or
falsy/absent) results list. -/
def geocode_no_results (full_address : String) : Json :=
  .obj [("latitude", .null), ("longitude", .null), ("geocode_quality", .null),
        ("formatted_address", .str full_address),
        ("geocode_status", .str "no_results")]

/-- The dict `_geocode_address` returns on HTTP 200 with at least one
result: built from the first result's fields only (`rfs` the first result
object, `lfs` its `location` sub-object, defaulting to empty when the
`location` key is absent). -/
def geocode_success (lfs rfs : List (String × Json)) (full_address : String) : Json :=
  .obj [("latitude", (lfs.lookup "latitude").getD .null),
        ("longitude", (lfs.lookup "longitude").getD .null),
        ("formatted_address", (rfs.lookup "formattedAddress").getD (.str full_address)),
        ("geocode_status", .str "success"),
        ("geocode_quality", .obj [
          ("granularity", (rfs.lookup "granularity").getD (.str "UNKNOWN")),
          ("place_id", (rfs.lookup "placeId").getD (.str ""))])]

/-- The body of `_geocode_address`'s `try` block, in the exception monad.
`response.json()` decoding is the `body` outcome; `data.get("results")` on
a non-dict body, a non-dict first result (at `result.get("location")`) or a
non-dict location value (at `location.get("latitude")`) raise
`AttributeError`, and `len()` of a truthy non-list results value raises
`TypeError`, exactly as in the Python source. -/
def geocode_body (outcome : HttpOutcome) (full_address : String) :
    Except String Json :=
  match outcome with
  | .exn e => .error e
  | .resp status_code body =>
    if status_code ≠ 200 then
      .ok (.obj [("latitude", .null), ("longitude", .null),
                 ("geocode_quality", .null),
                 ("formatted_address", .str full_address),
                 ("geocode_status", .str ("error_" ++ toString status_code))])
    else
      match body with
      | .error e => .error e
      | .ok (.obj fs) =>
        match fs.lookup "results" with
        | some (.arr (.obj rfs :: _)) =>
          (match (rfs.lookup "location").getD (.obj []) with
           | .obj lfs => .ok (geocode_success lfs rfs full_address)
           | _ => .error "AttributeError: location value has no attribute get")
        | some (.arr (_ :: _)) =>
          .error "AttributeError: result value has no attribute get"
        | some (.arr []) => .ok (geocode_no_results full_address)
        | some v =>
          if v.truthy then
            .error "TypeError: object has no len()"
          else
            .ok (geocode_no_results full_address)
        | none => .ok (geocode_no_results full_address)
      | .ok _ => .error "AttributeError: response body has no attribute get"

/-- Embeds `BattleCardProcessor._geocode_address`: builds the address
string, dispatches on the HTTP outcome, and converts any raised exception
into the `geocode_status = "error"` dict carrying `geocode_error`. -/
def geocode_address (outcome : HttpOutcome)
    (address city state zipcode : String) : Json :=
  let full_address := (address ++ ", " ++ city ++ ", " ++ state ++ " " ++ zipcode).trim
  match geocode_body outcome full_address with
  | .ok j => j
  | .error e =>
    .obj [("latitude", .null), ("longitude", .null), ("geocode_quality", .null),
          ("formatted_address", .str (address ++ ", " ++ city ++ ", " ++ state ++ " " ++ zipcode)),
          ("geocode_status", .str "error"),
          ("geocode_error", .str e)]

/-- The `metadata` section of a battle card. -/
structure CardMetadata where
  analysis_date : String
  csv_row_index : Nat
  error : Option String
deriving DecidableEq

/-- A battle card: the five data sections plus metadata. -/
structure BattleCard where
  ey_file_data : StrDict
  connectbase_data : StrDict
  geocode_data : Json
  llm_analysis : Json
  additional_tenants : List String
  metadata : CardMetadata

/-- Embeds `BattleCardProcessor._process_single_row`.  The geocoding
collaborator is an oracle `geo` from the four address fields to an HTTP
outcome; the LLM collaborator is a function `analyze` (instantiated with
`analyze_prospect` where a claim needs it); `now` is the
`time.strftime` timestamp. -/
def process_single_row (geo : String → String → String → String → HttpOutcome)
    (analyze : StrDict → StrDict → Json) (now : String)
    (row_data : Nat × StrDict) : Nat × BattleCard :=
  let idx := row_data.1
  let row := row_data.2
  let ey_data := extract_ey_data row
  let connectbase_data := extract_connectbase_data row
  let additional_tenants := extract_additional_tenants row
  let address := sGet ey_data "Address" ""
  let city := sGet ey_data "City" ""
  let state := sGet ey_data "State" ""
  let zipcode := sGet ey_data "Zipcode" ""
  let geocode_data := geocode_address (geo address city state zipcode) address city state zipcode
  let llm_analysis := analyze ey_data connectbase_data
  (idx, { ey_file_data := ey_data,
          connectbase_data := connectbase_data,
          geocode_data := geocode_data,
          llm_analysis := llm_analysis,
          additional_tenants := additional_tenants,
          metadata := { analysis_date := now, csv_row_index := idx, error := none } })

/-- The synthetic fallback battle card that `process_rows_parallel`
substitutes when a row task raises `e`. -/
def synthetic_failed_card (e : String) (now : String) (idx : Nat) : BattleCard :=
  { ey_file_data := [],
    connectbase_data := [],
    geocode_data := .obj [("latitude", .null), ("longitude", .null),
                          ("geocode_quality", .null),
                          ("formatted_address", .str ""),
                          ("geocode_status", .str "error")],
    llm_analysis := create_fallback_analysis e,
    additional_tenants := [],
    metadata := { analysis_date := now, csv_row_index := idx, error := some e } }

/-- The `indexed_rows` list: each row paired with its 1-based index. -/
def indexed_rows (rows : List StrDict) : List (Nat × StrDict) :=
  rows.enum.map (fun p => (p.1 + 1, p.2))

/-- One submitted worker task as the orchestrator's collection loop sees
it: either `future.result()` returns the `(idx, card)` pair computed by
`_process_single_row`, or the task raised (oracle `crash`) and the
orchestrator substitutes the synthetic failed card for that index. -/
def run_row_task (geo : String → String → String → String → HttpOutcome)
    (analyze : StrDict → StrDict → Json)
    (crash : Nat → StrDict → Option String) (now : String)
    (p : Nat × StrDict) : Nat × BattleCard :=
  match crash p.1 p.2 with
  | some e => (p.1, synthetic_failed_card e now p.1)
  | none => process_single_row geo analyze now p

/-- Embeds `BattleCardProcessor.process_rows_parallel`: tasks complete in
an arbitrary order `completion_order` (a permutation of `indexed_rows rows`
in every theorem), results are tagged with their row index, sorted by index
and stripped of the tag. -/
def process_rows_parallel (geo : String → String → String → String → HttpOutcome)
    (analyze : StrDict → StrDict → Json)
    (crash : Nat → StrDict → Option String) (now : String)
    (completion_order : List (Nat × StrDict)) : List BattleCard :=
  let results := completion_order.map (run_row_task geo analyze crash now)
  let sorted := results.mergeSort (fun a b => a.1 ≤ b.1)
  sorted.map (·.2)

/- ===== battlecard_storage.py ===== -/

/-- One entry of the summary's `top_prospects` list. -/
structure TopProspect where
  business_name : String
  address : String
  city : String
  state : String
  score : Rat
  confidence : Json
  icp_score : Json
  validated_employees : Json
  priority : Json
  dqe_distance : String

/-- Python `round` (banker's rounding, half to even) on an exact rational. -/
def round_half_even (x : Rat) : Int :=
  let f := ⌊x⌋
  let r := x - f
  if r < 1/2 then f
  else if 1/2 < r then f + 1
  else if f % 2 = 0 then f else f + 1

/-- Python `round(x, ndigits)` on an exact rational. -/
def py_round_to (x : Rat) (ndigits : Nat) : Rat :=
  (round_half_even (x * (10 : Rat) ^ ndigits) : Rat) / (10 : Rat) ^ ndigits

/-- The access `bc['llm_analysis']['overall_score']` followed by its use in
a comparison with 0 (which raises `TypeError` on a non-number). -/
def card_score (bc : BattleCard) : Except String Rat := do
  as_py_number (← subscript bc.llm_analysis "overall_score")

/-- The access `bc['llm_analysis']['data_confidence']['confidence_score']`
followed by its use in `sum(...)` (which raises on a non-number). -/
def card_confidence (bc : BattleCard) : Except String Rat := do
  let dc ← subscript bc.llm_analysis "data_confidence"
  as_py_number (← subscript dc "confidence_score")

/-- The `scores` comprehension of `_calculate_summary`: overall scores of
the cards with positive overall score, in input order, evaluating the
filter on every card. -/
def positive_scores : List BattleCard → Except String (List Rat)
  | [] => .ok []
  | bc :: rest => do
    let s ← card_score bc
    if 0 < s then
      let ss ← positive_scores rest
      .ok (s :: ss)
    else
      positive_scores rest

/-- The `confidences` comprehension of `_calculate_summary`. -/
def positive_confidences : List BattleCard → Except String (List Rat)
  | [] => .ok []
  | bc :: rest => do
    let s ← card_score bc
    if 0 < s then
      let c ← card_confidence bc
      let cs ← positive_confidences rest
      .ok (c :: cs)
    else
      positive_confidences rest

/-- One entry of the `top_prospects` comprehension, with every raising
dict access of the source in evaluation order. -/
def top_prospect_entry (bc : BattleCard) : Except String TopProspect := do
  let business_name ← dict_subscript bc.ey_file_data "Name"
  let address ← dict_subscript bc.ey_file_data "Address"
  let city ← dict_subscript bc.ey_file_data "City"
  let state ← dict_subscript bc.ey_file_data "State"
  let score ← card_score bc
  let dc ← subscript bc.llm_analysis "data_confidence"
  let confidence ← subscript dc "confidence_score"
  let icp ← subscript bc.llm_analysis "icp_fit"
  let icp_score ← subscript icp "icp_fit_score"
  let dc2 ← subscript bc.llm_analysis "data_confidence"
  let validated_employees ← subscript dc2 "validated_employee_count"
  let si ← subscript bc.llm_analysis "sales_intelligence"
  let priority ← subscript si "priority_level"
  let dqe_distance := sGet bc.connectbase_data "DQE_Site_Distance" "N/A"
  .ok { business_name := business_name, address := address, city := city,
        state := state, score := score, confidence := confidence,
        icp_score := icp_score, validated_employees := validated_employees,
        priority := priority, dqe_distance := dqe_distance }

/-- The unsorted `top_prospects` comprehension: one entry per card with
positive overall score, in input order. -/
def positive_prospects : List BattleCard → Except String (List TopProspect)
  | [] => .ok []
  | bc :: rest => do
    let s ← card_score bc
    if 0 < s then
      let p ← top_prospect_entry bc
      let ps ← positive_prospects rest
      .ok (p :: ps)
    else
      positive_prospects rest

/-- The summary dict produced by `BattleCardStorage._calculate_summary`. -/
structure BatchSummary where
  total_records : Nat
  analyzed_records : Nat
  skipped_records : Nat
  generation_date : String
  avg_score : Rat
  avg_confidence : Rat
  score_distribution : List (String × Nat)
  input_tokens : Nat
  output_tokens : Nat
  total_tokens : Nat
  top_prospects : List TopProspect

/-- Embeds `BattleCardStorage._calculate_summary`; `now` is the
`time.strftime` timestamp.  Any raising dict access or non-number
comparison inside the source propagates as an `Except.error` (in Python it
would escape `_calculate_summary` and be caught by `save_to_gcs`). -/
def calculate_summary (battle_cards : List BattleCard)
    (input_tokens output_tokens : Nat) (now : String) :
    Except String BatchSummary := do
  let total := battle_cards.length
  let all_scores ← battle_cards.mapM card_score
  let with_analysis := (all_scores.filter (fun s => decide (0 < s))).length
  let scores ← positive_scores battle_cards
  let avg_score := if scores.length ≠ 0 then py_round_to (scores.sum / (scores.length : Rat)) 1 else 0
  let confidences ← positive_confidences battle_cards
  let avg_confidence := if confidences.length ≠ 0 then py_round_to (confidences.sum / (confidences.length : Rat)) 2 else 0
  let score_distribution :=
    [("80-100 (Excellent)", (scores.filter (fun s => decide (80 ≤ s))).length),
     ("60-79 (Good)", (scores.filter (fun s => decide (60 ≤ s ∧ s < 80))).length),
     ("40-59 (Fair)", (scores.filter (fun s => decide (40 ≤ s ∧ s < 60))).length),
     ("20-39 (Poor)", (scores.filter (fun s => decide (20 ≤ s ∧ s < 40))).length),
     ("0-19 (Disqualified)", (scores.filter (fun s => decide (s < 20))).length)]
  let unsorted ← positive_prospects battle_cards
  let top_prospects := (unsorted.mergeSort (fun a b => b.score ≤ a.score)).take 20
  .ok { total_records := total,
        analyzed_records := with_analysis,
        skipped_records := total - with_analysis,
        generation_date := now,
        avg_score := avg_score,
        avg_confidence := avg_confidence,
        score_distribution := score_distribution,
        input_tokens := input_tokens,
        output_tokens := output_tokens,
        total_tokens := input_tokens + output_tokens,
        top_prospects := top_prospects }


/- ===== Claim-support definitions ===== -/

/-- Path lookup through nested JSON objects. -/
def Json.getPath : Json → List String → Option Json
  | j, [] => some j
  | j, k :: ks =>
    match j.get k with
    | some v => v.getPath ks
    | none => none

/-- The spec's scoring-rubric relation on an analysis document:
`overall_score = round(confidence_score × icp_fit_score)` whenever all
three fields are present as numbers. -/
def score_consistent (j : Json) : Prop :=
  ∀ s c i : Rat,
    j.getPath ["overall_score"] = some (.num s) →
    j.getPath ["data_confidence", "confidence_score"] = some (.num c) →
    j.getPath ["icp_fit", "icp_fit_score"] = some (.num i) →
    s = (round_half_even (c * i) : Rat)

/-- A generation environment whose calls all succeed with the given text
and no usage metadata, and whose `json.loads` returns the given outcome
regardless of input.  Used to instantiate theorems at concrete inputs. -/
def fixed_response_env (text : String) (load : Except String Json) : GenEnv :=
  { generate_content := fun _ _ => .ok { text := text, usage_metadata := none },
    json_loads := fun _ => load }

/-- A scoring response whose `overall_score` (50) differs from
`round(confidence_score × icp_fit_score)` = round(1 × 10) = 10, yet passes
every access of the success path of `analyze_prospect`. -/
def inconsistent_scoring_json : Json :=
  .obj [("overall_score", .num 50),
        ("data_confidence", .obj [("confidence_score", .num 1),
                                  ("validated_employee_count", .null)]),
        ("icp_fit", .obj [("icp_fit_score", .num 10)]),
        ("sales_intelligence", .obj [("priority_level", .str "high")])]

/-- A scoring response satisfying the rubric: 68 = round(0.85 × 80). -/
def consistent_scoring_json : Json :=
  .obj [("overall_score", .num 68),
        ("data_confidence", .obj [("confidence_score", .num (17/20)),
                                  ("validated_employee_count", .num 120)]),
        ("icp_fit", .obj [("icp_fit_score", .num 80)]),
        ("sales_intelligence", .obj [("priority_level", .str "high")])]


/-- A geocoding oracle whose HTTP call always raises (e.g. no network). -/
def trivial_geo : String → String → String → String → HttpOutcome :=
  fun _ _ _ _ => .exn "offline"

/-- An LLM collaborator returning a fixed document. -/
def null_analyze : StrDict → StrDict → Json := fun _ _ => .null

/-- A crash oracle under which no row task raises. -/
def no_crash : Nat → StrDict → Option String := fun _ _ => none

/-- A crash oracle under which exactly the task of row index 1 raises. -/
def crash_row_one : Nat → StrDict → Option String :=
  fun idx _ => if idx = 1 then some "boom" else none


/-- A well-formed battle card with the given name, overall score and
confidence, shaped like a `_process_single_row` product with a validated
analysis. -/
def sample_card (name : String) (score conf : Rat) : BattleCard :=
  { ey_file_data := [("Name", name), ("Address", "1 Main St"),
                     ("City", "Pittsburgh"), ("State", "PA")],
    connectbase_data := [("DQE_Site_Distance", "100")],
    geocode_data := .null,
    llm_analysis := .obj [
      ("overall_score", .num score),
      ("data_confidence", .obj [("confidence_score", .num conf),
                                ("validated_employee_count", .num 50)]),
      ("icp_fit", .obj [("icp_fit_score", .num 80)]),
      ("sales_intelligence", .obj [("priority_level", .str "high")])],
    additional_tenants := [],
    metadata := { analysis_date := "t", csv_row_index := 1, error := none } }

/- ===== Claims ===== -/

/-- C5: `_geocode_address` never raises (it is a total function of the HTTP
outcome) and its result's `geocode_status` is determined by that outcome: a
raised exception yields status "error" with null coordinates and the message
in `geocode_error`; a non-200 HTTP status yields status "error_<code>" with
null coordinates; HTTP 200 with an absent or empty results list yields
"no_results" with null coordinates; HTTP 200 with at least one result object
yields "success" built from the first result's latitude, longitude,
formatted address, granularity and place-id only. -/
theorem geocode_status_by_http_outcome (address city state zipcode : String) :
    (∀ e, geocode_address (.exn e) address city state zipcode =
      .obj [("latitude", .null), ("longitude", .null), ("geocode_quality", .null),
            ("formatted_address", .str (address ++ ", " ++ city ++ ", " ++ state ++ " " ++ zipcode)),
            ("geocode_status", .str "error"), ("geocode_error", .str e)])
    ∧
    (∀ code body, code ≠ 200 →
      geocode_address (.resp code body) address city state zipcode =
      .obj [("latitude", .null), ("longitude", .null), ("geocode_quality", .null),
            ("formatted_address", .str ((address ++ ", " ++ city ++ ", " ++ state ++ " " ++ zipcode).trim)),
            ("geocode_status", .str ("error_" ++ toString code))])
    ∧
    (∀ fs : List (String × Json),
      (fs.lookup "results" = none ∨ fs.lookup "results" = some (.arr [])) →
      geocode_address (.resp 200 (.ok (.obj fs))) address city state zipcode =
      geocode_no_results ((address ++ ", " ++ city ++ ", " ++ state ++ " " ++ zipcode).trim))
    ∧
    (∀ (fs rfs : List (String × Json)) (rest : List Json) (lfs : List (String × Json)),
      fs.lookup "results" = some (.arr (.obj rfs :: rest)) →
      (rfs.lookup "location" = some (.obj lfs) ∨
        (rfs.lookup "location" = none ∧ lfs = [])) →
      geocode_address (.resp 200 (.ok (.obj fs))) address city state zipcode =
      .obj [("latitude", (lfs.lookup "latitude").getD .null),
            ("longitude", (lfs.lookup "longitude").getD .null),
            ("formatted_address", (rfs.lookup "formattedAddress").getD
              (.str ((address ++ ", " ++ city ++ ", " ++ state ++ " " ++ zipcode).trim))),
            ("geocode_status", .str "success"),
            ("geocode_quality", .obj [
              ("granularity", (rfs.lookup "granularity").getD (.str "UNKNOWN")),
              ("place_id", (rfs.lookup "placeId").getD (.str ""))])]) := by
  refine ⟨?_, ?_, ?_, ?_⟩
  · intro e
    rfl
  · intro code body hcode
    simp only [geocode_address, geocode_body, if_pos hcode]
  · intro fs hres
    rcases hres with h | h <;>
      simp only [geocode_address, geocode_body, if_neg (by decide : ¬ (200 : Nat) ≠ 200), h]
  · intro fs rfs rest lfs hres hloc
    rcases hloc with h | ⟨h, rfl⟩ <;>
      simp only [geocode_address, geocode_body, if_neg (by decide : ¬ (200 : Nat) ≠ 200),
        hres, h, Option.getD_some, Option.getD_none, geocode_success]

/-- C5 witness: the four cases of `geocode_status_by_http_outcome`
evaluated at concrete inputs (an exception, an HTTP 500, an HTTP 200 with
an empty results list, and an HTTP 200 with one full result). -/
theorem geocode_status_by_http_outcome_witness :
    geocode_address (.exn "timeout") "625 Liberty Ave" "Pittsburgh" "PA" "15222" =
      .obj [("latitude", .null), ("longitude", .null), ("geocode_quality", .null),
            ("formatted_address", .str "625 Liberty Ave, Pittsburgh, PA 15222"),
            ("geocode_status", .str "error"), ("geocode_error", .str "timeout")]
    ∧
    geocode_address (.resp 500 (.ok .null)) "625 Liberty Ave" "Pittsburgh" "PA" "15222" =
      .obj [("latitude", .null), ("longitude", .null), ("geocode_quality", .null),
            ("formatted_address", .str "625 Liberty Ave, Pittsburgh, PA 15222".trim),
            ("geocode_status", .str "error_500")]
    ∧
    geocode_address (.resp 200 (.ok (.obj [("results", .arr [])])))
        "625 Liberty Ave" "Pittsburgh" "PA" "15222" =
      geocode_no_results "625 Liberty Ave, Pittsburgh, PA 15222".trim
    ∧
    geocode_address (.resp 200 (.ok (.obj [("results", .arr [
        .obj [("location", .obj [("latitude", .num 40), ("longitude", .num (-80))]),
              ("formattedAddress", .str "625 Liberty Avenue, Pittsburgh, PA 15222, USA"),
              ("granularity", .str "ROOFTOP"),
              ("placeId", .str "place-1")],
        .obj [("location", .obj [("latitude", .num 0), ("longitude", .num 0)])]])])))
        "625 Liberty Ave" "Pittsburgh" "PA" "15222" =
      .obj [("latitude", .num 40),
            ("longitude", .num (-80)),
            ("formatted_address", .str "625 Liberty Avenue, Pittsburgh, PA 15222, USA"),
            ("geocode_status", .str "success"),
            ("geocode_quality", .obj [("granularity", .str "ROOFTOP"),
                                      ("place_id", .str "place-1")])] := by
  have h := geocode_status_by_http_outcome "625 Liberty Ave" "Pittsburgh" "PA" "15222"
  refine ⟨h.1 "timeout", ?_, ?_, ?_⟩
  · have := h.2.1 500 (.ok .null) (by decide)
    simpa using this
  · have := h.2.2.1 [("results", .arr [])] (Or.inr rfl)
    simpa using this
  · have := h.2.2.2
      [("results", .arr [
        .obj [("location", .obj [("latitude", .num 40), ("longitude", .num (-80))]),
              ("formattedAddress", .str "625 Liberty Avenue, Pittsburgh, PA 15222, USA"),
              ("granularity", .str "ROOFTOP"),
              ("placeId", .str "place-1")],
        .obj [("location", .obj [("latitude", .num 0), ("longitude", .num 0)])]])]
      [("location", .obj [("latitude", .num 40), ("longitude", .num (-80))]),
       ("formattedAddress", .str "625 Liberty Avenue, Pittsburgh, PA 15222, USA"),
       ("granularity", .str "ROOFTOP"),
       ("placeId", .str "place-1")]
      [.obj [("location", .obj [("latitude", .num 0), ("longitude", .num 0)])]]
      [("latitude", .num 40), ("longitude", .num (-80))]
      (by rfl) (Or.inl (by rfl))
    simpa using this

/-- Helper: every field the claims inspect on the canonical fallback
analysis, for any error message: score 0, priority "disqualify", six empty
list fields, and the two singleton list fields. -/
theorem create_fallback_analysis_fields (e : String) :
    (create_fallback_analysis e).getPath ["overall_score"] = some (.num 0) ∧
    (create_fallback_analysis e).getPath ["sales_intelligence", "priority_level"] = some (.str "disqualify") ∧
    (create_fallback_analysis e).getPath ["data_confidence", "employee_count_sources"] = some (.arr []) ∧
    (create_fallback_analysis e).getPath ["icp_fit", "business_assessment", "infrastructure_needs"] = some (.arr []) ∧
    (create_fallback_analysis e).getPath ["sales_intelligence", "key_selling_points"] = some (.arr []) ∧
    (create_fallback_analysis e).getPath ["sales_intelligence", "likely_pain_points"] = some (.arr []) ∧
    (create_fallback_analysis e).getPath ["sales_intelligence", "competitive_angles"] = some (.arr []) ∧
    (create_fallback_analysis e).getPath ["sales_intelligence", "recommended_services"] = some (.arr []) ∧
    (create_fallback_analysis e).getPath ["sales_intelligence", "data_gaps_to_resolve"] =
      some (.arr [.str "Complete data validation required"]) ∧
    (create_fallback_analysis e).getPath ["sales_intelligence", "next_best_actions"] =
      some (.arr [.str "Retry data enrichment"]) ∧
    (create_fallback_analysis e).getPath ["data_confidence", "data_quality_notes"] =
      some (.str ("Error: " ++ e)) :=
  ⟨rfl, rfl, rfl, rfl, rfl, rfl, rfl, rfl, rfl, rfl, rfl⟩

/-- C3 counterexample: with a scoring response that is not valid JSON, the
returned analysis is the canonical fallback, but its list-valued fields are
not all empty: `data_gaps_to_resolve` and `next_best_actions` are singleton
lists, contradicting the claim's "all list-valued fields empty". -/
theorem fallback_list_fields_not_all_empty :
    (analyze_prospect
        (fixed_response_env "not json" (.error "Expecting value: line 1 column 1 (char 0)"))
        ⟨0, 0⟩ [] []).1 =
      create_fallback_analysis "Expecting value: line 1 column 1 (char 0)" ∧
    (analyze_prospect
        (fixed_response_env "not json" (.error "Expecting value: line 1 column 1 (char 0)"))
        ⟨0, 0⟩ [] []).1.getPath ["sales_intelligence", "data_gaps_to_resolve"] =
      some (.arr [.str "Complete data validation required"]) ∧
    (analyze_prospect
        (fixed_response_env "not json" (.error "Expecting value: line 1 column 1 (char 0)"))
        ⟨0, 0⟩ [] []).1.getPath ["sales_intelligence", "next_best_actions"] =
      some (.arr [.str "Retry data enrichment"]) ∧
    (Json.arr [.str "Complete data validation required"]) ≠ .arr [] := by
  refine ⟨rfl, rfl, rfl, ?_⟩
  simp

/-- C3 (amended): whenever either generation call of `analyze_prospect`
raises, or the scoring-pass response (after stripping optional code fences)
fails to decode as JSON, the returned analysis equals the canonical
`create_fallback_analysis`: `overall_score` 0, `priority_level`
"disqualify", empty `employee_count_sources`, `infrastructure_needs`,
`key_selling_points`, `likely_pain_points`, `competitive_angles` and
`recommended_services`, with the two remaining list fields being the fixed
singletons `data_gaps_to_resolve = ["Complete data validation required"]`
and `next_best_actions = ["Retry data enrichment"]` (not empty, as the
original claim stated), and the error text captured in
`data_quality_notes`; no exception propagates (`analyze_prospect` is a
total function). -/
theorem analyze_prospect_failure_fallback (env : GenEnv) (st : LLMState)
    (ey_data connectbase_data : StrDict)
    (hfail :
      (∃ e, env.generate_content
          (get_research_prompt (sGet ey_data "Name" "Unknown")
            (sGet ey_data "Address" "") (sGet ey_data "City" "")
            (sGet ey_data "State" "") (sGet ey_data "No Of Employees" "N/A")
            (sGet connectbase_data "API_NoOfEmployees" "N/A")
            (sGet connectbase_data "API_LinkedIn" "N/A")) research_config = .error e) ∨
      (∃ r, env.generate_content
          (get_research_prompt (sGet ey_data "Name" "Unknown")
            (sGet ey_data "Address" "") (sGet ey_data "City" "")
            (sGet ey_data "State" "") (sGet ey_data "No Of Employees" "N/A")
            (sGet connectbase_data "API_NoOfEmployees" "N/A")
            (sGet connectbase_data "API_LinkedIn" "N/A")) research_config = .ok r ∧
        ((∃ e, env.generate_content
            (get_analysis_prompt r.text (sGet ey_data "Name" "Unknown")
              (sGet ey_data "Address" "") (sGet ey_data "City" "")
              (sGet ey_data "State" "") ey_data connectbase_data)
            formatting_config = .error e) ∨
         (∃ f e, env.generate_content
            (get_analysis_prompt r.text (sGet ey_data "Name" "Unknown")
              (sGet ey_data "Address" "") (sGet ey_data "City" "")
              (sGet ey_data "State" "") ey_data connectbase_data)
            formatting_config = .ok f ∧
          env.json_loads (extract_json_text f.text) = .error e)))) :
    ∃ e,
      (analyze_prospect env st ey_data connectbase_data).1 = create_fallback_analysis e ∧
      (analyze_prospect env st ey_data connectbase_data).1.getPath ["overall_score"] = some (.num 0) ∧
      (analyze_prospect env st ey_data connectbase_data).1.getPath ["sales_intelligence", "priority_level"] = some (.str "disqualify") ∧
      (analyze_prospect env st ey_data connectbase_data).1.getPath ["data_confidence", "employee_count_sources"] = some (.arr []) ∧
      (analyze_prospect env st ey_data connectbase_data).1.getPath ["icp_fit", "business_assessment", "infrastructure_needs"] = some (.arr []) ∧
      (analyze_prospect env st ey_data connectbase_data).1.getPath ["sales_intelligence", "key_selling_points"] = some (.arr []) ∧
      (analyze_prospect env st ey_data connectbase_data).1.getPath ["sales_intelligence", "likely_pain_points"] = some (.arr []) ∧
      (analyze_prospect env st ey_data connectbase_data).1.getPath ["sales_intelligence", "competitive_angles"] = some (.arr []) ∧
      (analyze_prospect env st ey_data connectbase_data).1.getPath ["sales_intelligence", "recommended_services"] = some (.arr []) ∧
      (analyze_prospect env st ey_data connectbase_data).1.getPath ["sales_intelligence", "data_gaps_to_resolve"] = some (.arr [.str "Complete data validation required"]) ∧
      (analyze_prospect env st ey_data connectbase_data).1.getPath ["sales_intelligence", "next_best_actions"] = some (.arr [.str "Retry data enrichment"]) ∧
      (analyze_prospect env st ey_data connectbase_data).1.getPath ["data_confidence", "data_quality_notes"] = some (.str ("Error: " ++ e)) := by
  have hres : ∃ e, (analyze_prospect env st ey_data connectbase_data).1 = create_fallback_analysis e := by
    rcases hfail with ⟨e, h1⟩ | ⟨r, hr, ⟨e, h2⟩ | ⟨f, e, h2, h3⟩⟩
    · exact ⟨e, by simp only [analyze_prospect, h1]⟩
    · exact ⟨e, by simp only [analyze_prospect, hr, h2]⟩
    · exact ⟨e, by simp only [analyze_prospect, hr, h2, h3]⟩
  obtain ⟨e, he⟩ := hres
  refine ⟨e, he, ?_⟩
  rw [he]
  exact create_fallback_analysis_fields e

/-- C3 witness: `analyze_prospect_failure_fallback` applied to a concrete
environment whose scoring response fails JSON decoding. -/
theorem analyze_prospect_failure_fallback_witness :
    (analyze_prospect
        (fixed_response_env "not json" (.error "Expecting value: line 1 column 1 (char 0)"))
        ⟨0, 0⟩ [] []).1.getPath ["sales_intelligence", "priority_level"] =
      some (.str "disqualify") := by
  obtain ⟨e, he, hprops⟩ := analyze_prospect_failure_fallback
    (fixed_response_env "not json" (.error "Expecting value: line 1 column 1 (char 0)"))
    ⟨0, 0⟩ [] []
    (Or.inr ⟨⟨"not json", none⟩, rfl,
      Or.inr ⟨⟨"not json", none⟩, "Expecting value: line 1 column 1 (char 0)", rfl, rfl⟩⟩)
  exact hprops.2.1

/-- C4 counterexample: the success path of `analyze_prospect` returns the
decoded scoring JSON verbatim, without checking the rubric: with a concrete
scoring response carrying `overall_score` 50, `confidence_score` 1 and
`icp_fit_score` 10, the returned analysis is non-fallback yet violates
`overall_score = round(confidence_score × icp_fit_score)` (50 ≠ round(10)). -/
theorem overall_score_rubric_not_enforced :
    (analyze_prospect (fixed_response_env "" (.ok inconsistent_scoring_json))
        ⟨0, 0⟩ [] []).1 = inconsistent_scoring_json ∧
    (∀ e, inconsistent_scoring_json ≠ create_fallback_analysis e) ∧
    ¬ score_consistent inconsistent_scoring_json := by
  refine ⟨rfl, ?_, ?_⟩
  · intro e h
    have h50 : inconsistent_scoring_json.getPath ["overall_score"] = some (.num 50) := rfl
    rw [h] at h50
    have h0 : (create_fallback_analysis e).getPath ["overall_score"] = some (.num 0) := rfl
    rw [h0] at h50
    simp at h50
  · intro hcons
    have h := hcons 50 1 10 rfl rfl rfl
    norm_num [round_half_even] at h

/-- C4 (amended): `analyze_prospect` returns the decoded scoring-pass JSON
unchanged on the success path, so a non-fallback analysis satisfies
`overall_score = round(confidence_score × icp_fit_score)` exactly when the
generation response itself does — the prompt instructs the relation, but
the code never verifies it. -/
theorem analyze_prospect_returns_scoring_json_unchanged (env : GenEnv)
    (st : LLMState) (ey_data connectbase_data : StrDict)
    (r f : GenResponse) (j : Json)
    (hr : env.generate_content
        (get_research_prompt (sGet ey_data "Name" "Unknown")
          (sGet ey_data "Address" "") (sGet ey_data "City" "")
          (sGet ey_data "State" "") (sGet ey_data "No Of Employees" "N/A")
          (sGet connectbase_data "API_NoOfEmployees" "N/A")
          (sGet connectbase_data "API_LinkedIn" "N/A")) research_config = .ok r)
    (hf : env.generate_content
        (get_analysis_prompt r.text (sGet ey_data "Name" "Unknown")
          (sGet ey_data "Address" "") (sGet ey_data "City" "")
          (sGet ey_data "State" "") ey_data connectbase_data)
        formatting_config = .ok f)
    (hj : env.json_loads (extract_json_text f.text) = .ok j)
    (hv : validate_scoring_output j = .ok ()) :
    (analyze_prospect env st ey_data connectbase_data).1 = j ∧
    (score_consistent (analyze_prospect env st ey_data connectbase_data).1 ↔
      score_consistent j) := by
  have heq : (analyze_prospect env st ey_data connectbase_data).1 = j := by
    simp only [analyze_prospect, hr, hf, hj, hv]
  exact ⟨heq, by rw [heq]⟩

/-- C4 witness: `analyze_prospect_returns_scoring_json_unchanged` applied
to a concrete environment whose scoring response does satisfy the rubric
(68 = round(0.85 × 80)). -/
theorem analyze_prospect_returns_scoring_json_unchanged_witness :
    (analyze_prospect (fixed_response_env "" (.ok consistent_scoring_json))
        ⟨0, 0⟩ [] []).1 = consistent_scoring_json ∧
    score_consistent consistent_scoring_json := by
  have h := analyze_prospect_returns_scoring_json_unchanged
    (fixed_response_env "" (.ok consistent_scoring_json)) ⟨0, 0⟩ [] []
    ⟨"", none⟩ ⟨"", none⟩ consistent_scoring_json rfl rfl rfl rfl
  refine ⟨h.1, ?_⟩
  intro s c i hs hc hi
  have hs' : (some (Json.num 68) : Option Json) = some (.num s) := hs
  have hc' : (some (Json.num (17/20)) : Option Json) = some (.num c) := hc
  have hi' : (some (Json.num 80) : Option Json) = some (.num i) := hi
  simp only [Option.some.injEq, Json.num.injEq] at hs' hc' hi'
  subst hs' hc' hi'
  norm_num [round_half_even]

/-- Helper: a JSON value that passes the success-path accesses of
`analyze_prospect` is an object. -/
theorem validate_scoring_output_obj (j : Json)
    (h : validate_scoring_output j = .ok ()) : ∃ fs, j = Json.obj fs := by
  cases j with
  | obj fs => exact ⟨fs, rfl⟩
  | null => exact Except.noConfusion (show (Except.error
      "TypeError: value is not subscriptable at key overall_score" : Except String Unit) = .ok () from h)
  | bool b => exact Except.noConfusion (show (Except.error
      "TypeError: value is not subscriptable at key overall_score" : Except String Unit) = .ok () from h)
  | num q => exact Except.noConfusion (show (Except.error
      "TypeError: value is not subscriptable at key overall_score" : Except String Unit) = .ok () from h)
  | str s => exact Except.noConfusion (show (Except.error
      "TypeError: value is not subscriptable at key overall_score" : Except String Unit) = .ok () from h)
  | arr xs => exact Except.noConfusion (show (Except.error
      "TypeError: value is not subscriptable at key overall_score" : Except String Unit) = .ok () from h)

/-- Helper: `analyze_prospect` always returns an object-shaped (non-null)
analysis document, on every path. -/
theorem analyze_prospect_is_object (env : GenEnv) (st : LLMState)
    (ey_data connectbase_data : StrDict) :
    ∃ fs, (analyze_prospect env st ey_data connectbase_data).1 = Json.obj fs := by
  simp only [analyze_prospect]
  split
  · exact ⟨_, rfl⟩
  · split
    · exact ⟨_, rfl⟩
    · split
      · exact ⟨_, rfl⟩
      · split
        · exact ⟨_, rfl⟩
        · rename_i x u h4
          cases u
          obtain ⟨fs, hfs⟩ := validate_scoring_output_obj _ h4
          exact ⟨fs, hfs⟩

/-- C6: for a row whose `API_EntityName` column is absent or "N/A", the
battle card built by `_process_single_row` still carries an analysis
obtained by running `analyze_prospect` on the extracted data (the analysis
is not skipped and is a non-null JSON object), and the scoring prompt built
for such a row contains the directive telling the model to present
NO_DATA/"unknown" for network-dependent fields rather than fabricating
values. -/
theorem missing_connectbase_still_runs_analysis
    (geo : String → String → String → String → HttpOutcome)
    (genv : GenEnv) (st : LLMState) (now : String) (idx : Nat) (row : StrDict)
    (h : row.lookup "API_EntityName" = none ∨ row.lookup "API_EntityName" = some "N/A") :
    ((process_single_row geo (fun e c => (analyze_prospect genv st e c).1) now
        (idx, row)).2).llm_analysis =
      (analyze_prospect genv st (extract_ey_data row) (extract_connectbase_data row)).1 ∧
    (∃ fs, ((process_single_row geo (fun e c => (analyze_prospect genv st e c).1) now
        (idx, row)).2).llm_analysis = Json.obj fs) ∧
    (∀ research_text business_name address city state : String,
      ∃ a b : String,
        get_analysis_prompt research_text business_name address city state
          (extract_ey_data row) (extract_connectbase_data row) =
        a ++ no_network_data_directive ++ b) := by
  have hcb : sGet (extract_connectbase_data row) "API_EntityName" "N/A" = "N/A" := by
    rcases h with h | h <;> simp [sGet, extract_connectbase_data, h]
  refine ⟨rfl, ?_, ?_⟩
  · exact analyze_prospect_is_object genv st (extract_ey_data row) (extract_connectbase_data row)
  · intro research_text business_name address city state
    refine ⟨analysis_prompt_head research_text business_name address city state
        (sGet (extract_ey_data row) "No Of Employees" "N/A")
        connectbase_section_absent false,
      analysis_prompt_tail false, ?_⟩
    simp only [get_analysis_prompt, hcb]
    simp

/-- C6 witness: `missing_connectbase_still_runs_analysis` applied to the
empty row (no `API_EntityName` column at all) with a concrete failing
generation environment. -/
theorem missing_connectbase_still_runs_analysis_witness :
    ((process_single_row (fun _ _ _ _ => .exn "no api key")
        (fun e c => (analyze_prospect (fixed_response_env "x" (.error "bad")) ⟨0, 0⟩ e c).1)
        "2026-02-01 00:00:00" (1, [])).2).llm_analysis =
      create_fallback_analysis "bad" ∧
    (∃ a b : String,
      get_analysis_prompt "research" "Biz" "625 Liberty Ave" "Pittsburgh" "PA"
        (extract_ey_data []) (extract_connectbase_data []) =
      a ++ no_network_data_directive ++ b) := by
  have h := missing_connectbase_still_runs_analysis (fun _ _ _ _ => .exn "no api key")
    (fixed_response_env "x" (.error "bad")) ⟨0, 0⟩ "2026-02-01 00:00:00" 1 []
    (Or.inl rfl)
  exact ⟨h.1.trans rfl, h.2.2 "research" "Biz" "625 Liberty Ave" "Pittsburgh" "PA"⟩

/-- Helper: a collected task result is tagged with its own row index. -/
theorem run_row_task_fst (geo : String → String → String → String → HttpOutcome)
    (analyze : StrDict → StrDict → Json) (crash : Nat → StrDict → Option String)
    (now : String) (p : Nat × StrDict) :
    (run_row_task geo analyze crash now p).1 = p.1 := by
  unfold run_row_task
  cases crash p.1 p.2 <;> rfl

/-- Helper: the battle card a task produces carries its own row index in
`metadata.csv_row_index`, on both the success and the synthetic path. -/
theorem run_row_task_index (geo : String → String → String → String → HttpOutcome)
    (analyze : StrDict → StrDict → Json) (crash : Nat → StrDict → Option String)
    (now : String) (p : Nat × StrDict) :
    (run_row_task geo analyze crash now p).2.metadata.csv_row_index = p.1 := by
  unfold run_row_task
  cases crash p.1 p.2 <;> rfl

/-- Helper: the indices of `indexed_rows` are exactly 1..N in order. -/
theorem indexed_rows_map_fst (rows : List StrDict) :
    (indexed_rows rows).map Prod.fst = (List.range rows.length).map (· + 1) := by
  unfold indexed_rows
  rw [List.map_map, ← List.enum_map_fst rows, List.map_map]
  rfl

/-- Helper: `indexed_rows` has one entry per input row. -/
theorem indexed_rows_length (rows : List StrDict) :
    (indexed_rows rows).length = rows.length := by
  simp [indexed_rows]

/-- Helper and key characterization of the orchestrator: for any completion
order that is a permutation of the submitted tasks, `process_rows_parallel`
returns exactly the per-row task results in input-row order — the output is
independent of the completion order and position `i` holds the card
computed from row `i+1` alone. -/
theorem process_rows_parallel_eq_map
    (geo : String → String → String → String → HttpOutcome)
    (analyze : StrDict → StrDict → Json) (crash : Nat → StrDict → Option String)
    (now : String) (rows : List StrDict) (order : List (Nat × StrDict))
    (hperm : order.Perm (indexed_rows rows)) :
    process_rows_parallel geo analyze crash now order =
      (indexed_rows rows).map (fun p => (run_row_task geo analyze crash now p).2) := by
  simp only [process_rows_parallel]
  have htrans : ∀ a b c : Nat × BattleCard,
      (fun a b : Nat × BattleCard => decide (a.1 ≤ b.1)) a b →
      (fun a b : Nat × BattleCard => decide (a.1 ≤ b.1)) b c →
      (fun a b : Nat × BattleCard => decide (a.1 ≤ b.1)) a c := by
    intro a b c hab hbc
    simp only [decide_eq_true_eq] at *
    omega
  have htotal : ∀ a b : Nat × BattleCard,
      ((fun a b : Nat × BattleCard => decide (a.1 ≤ b.1)) a b ||
       (fun a b : Nat × BattleCard => decide (a.1 ≤ b.1)) b a) := by
    intro a b
    simp only [Bool.or_eq_true, decide_eq_true_eq]
    omega
  set f : Nat × StrDict → Nat × BattleCard := run_row_task geo analyze crash now with hf
  have hperm3 :
      ((order.map f).mergeSort (fun a b => a.1 ≤ b.1)).Perm ((indexed_rows rows).map f) :=
    (List.mergeSort_perm (order.map f) _).trans (hperm.map f)
  -- the submitted tasks' keys, in input order, are 1..N
  have hkeys : ((indexed_rows rows).map f).map Prod.fst =
      (List.range rows.length).map (· + 1) := by
    rw [List.map_map]
    have hcomp : Prod.fst ∘ f = Prod.fst := funext fun p => run_row_task_fst geo analyze crash now p
    rw [hcomp, indexed_rows_map_fst]
  -- target side: keys strictly increasing
  have htarget_lt : ((indexed_rows rows).map f).Pairwise (fun a b => a.1 < b.1) := by
    have h1 : (((indexed_rows rows).map f).map Prod.fst).Pairwise (· < ·) := by
      rw [hkeys, List.pairwise_map]
      exact (List.pairwise_lt_range rows.length).imp (by omega)
    exact (List.pairwise_map).mp h1
  -- sorted side: keys weakly increasing and nodup, hence strictly increasing
  have hsorted_le :
      ((order.map f).mergeSort (fun a b => a.1 ≤ b.1)).Pairwise (fun a b : Nat × BattleCard => a.1 ≤ b.1) :=
    (List.sorted_mergeSort htrans htotal (order.map f)).imp (fun h => of_decide_eq_true h)
  have hnodup :
      (((order.map f).mergeSort (fun a b => a.1 ≤ b.1)).map Prod.fst).Nodup := by
    have hn : (((indexed_rows rows).map f).map Prod.fst).Nodup := by
      rw [hkeys]
      exact (List.nodup_range rows.length).map (fun a b h => by omega)
    exact ((hperm3.map Prod.fst).nodup_iff).mpr hn
  have hsorted_lt :
      ((order.map f).mergeSort (fun a b => a.1 ≤ b.1)).Pairwise (fun a b => a.1 < b.1) := by
    have hne : ((order.map f).mergeSort (fun a b => a.1 ≤ b.1)).Pairwise
        (fun a b : Nat × BattleCard => a.1 ≠ b.1) :=
      (List.pairwise_map).mp hnodup
    exact (hsorted_le.and hne).imp (fun h => lt_of_le_of_ne h.1 h.2)
  haveI : IsAntisymm (Nat × BattleCard) (fun a b => a.1 < b.1) :=
    ⟨fun a b h h' => absurd h' (Nat.lt_asymm h)⟩
  have heq := List.eq_of_perm_of_sorted hperm3 hsorted_lt htarget_lt
  rw [heq, List.map_map]
  rfl

/-- C1: for every input row list and every completion order of the worker
pool (any permutation of the submitted tasks), `process_rows_parallel`
returns exactly one battle card per input row; the cards' metadata
`csv_row_index` values, read in output order, are exactly 1, …, N (each
index appears exactly once, contiguously); and a row whose task raised
contributes the synthetic failed battle card at its index rather than being
omitted. -/
theorem process_rows_parallel_covers_all_indices
    (geo : String → String → String → String → HttpOutcome)
    (analyze : StrDict → StrDict → Json) (crash : Nat → StrDict → Option String)
    (now : String) (rows : List StrDict) (order : List (Nat × StrDict))
    (hperm : order.Perm (indexed_rows rows)) :
    (process_rows_parallel geo analyze crash now order).length = rows.length ∧
    (process_rows_parallel geo analyze crash now order).map
        (fun bc => bc.metadata.csv_row_index) =
      (List.range rows.length).map (· + 1) ∧
    (∀ p ∈ indexed_rows rows, ∀ e, crash p.1 p.2 = some e →
      synthetic_failed_card e now p.1 ∈ process_rows_parallel geo analyze crash now order) := by
  rw [process_rows_parallel_eq_map geo analyze crash now rows order hperm]
  refine ⟨?_, ?_, ?_⟩
  · rw [List.length_map, indexed_rows_length]
  · rw [List.map_map]
    have hcomp : (fun bc : BattleCard => bc.metadata.csv_row_index) ∘
        (fun p => (run_row_task geo analyze crash now p).2) = Prod.fst :=
      funext fun p => run_row_task_index geo analyze crash now p
    rw [hcomp, indexed_rows_map_fst]
  · intro p hp e he
    refine List.mem_map.mpr ⟨p, hp, ?_⟩
    simp [run_row_task, he]

/-- C1 witness: two rows completing in reversed order, the first row's task
raising; the output still carries indices [1, 2] and contains the synthetic
card for row 1. -/
theorem process_rows_parallel_covers_all_indices_witness :
    (process_rows_parallel trivial_geo null_analyze crash_row_one "t"
        [(2, [("Name", "B")]), (1, [("Name", "A")])]).map
      (fun bc => bc.metadata.csv_row_index) = [1, 2] ∧
    synthetic_failed_card "boom" "t" 1 ∈
      process_rows_parallel trivial_geo null_analyze crash_row_one "t"
        [(2, [("Name", "B")]), (1, [("Name", "A")])] := by
  have h := process_rows_parallel_covers_all_indices trivial_geo null_analyze crash_row_one
    "t" [[("Name", "A")], [("Name", "B")]] [(2, [("Name", "B")]), (1, [("Name", "A")])]
    (List.Perm.swap (1, [("Name", "A")]) (2, [("Name", "B")]) [])
  exact ⟨h.2.1, h.2.2 (1, [("Name", "A")]) (by decide) "boom" rfl⟩

/-- C2 (amended): the output is ordered by original input row index
regardless of the worker pool's completion order, and each card is a
function of its own row and its 1-based position only; hence permuting the
input rows permutes the cards' positions with each card recomputed at its
new position — all row-derived content is unchanged, but the card's
`metadata.csv_row_index` necessarily reflects the new position, so the
original claim's "without changing any individual card's content" does not
hold for that metadata field. -/
theorem process_rows_parallel_input_order
    (geo : String → String → String → String → HttpOutcome)
    (analyze : StrDict → StrDict → Json) (crash : Nat → StrDict → Option String)
    (now : String) (rows : List StrDict) (order₁ order₂ : List (Nat × StrDict))
    (h₁ : order₁.Perm (indexed_rows rows)) (h₂ : order₂.Perm (indexed_rows rows)) :
    process_rows_parallel geo analyze crash now order₁ =
      process_rows_parallel geo analyze crash now order₂ ∧
    process_rows_parallel geo analyze crash now order₁ =
      (indexed_rows rows).map (fun p => (run_row_task geo analyze crash now p).2) := by
  have e₁ := process_rows_parallel_eq_map geo analyze crash now rows order₁ h₁
  have e₂ := process_rows_parallel_eq_map geo analyze crash now rows order₂ h₂
  exact ⟨e₁.trans e₂.symm, e₁⟩

/-- C2 witness: `process_rows_parallel_input_order` applied to a concrete
two-row batch with reversed and identity completion orders. -/
theorem process_rows_parallel_input_order_witness :
    process_rows_parallel trivial_geo null_analyze no_crash "t"
        [(2, [("Name", "B")]), (1, [("Name", "A")])] =
      process_rows_parallel trivial_geo null_analyze no_crash "t"
        [(1, [("Name", "A")]), (2, [("Name", "B")])] :=
  (process_rows_parallel_input_order trivial_geo null_analyze no_crash "t"
    [[("Name", "A")], [("Name", "B")]]
    [(2, [("Name", "B")]), (1, [("Name", "A")])]
    [(1, [("Name", "A")]), (2, [("Name", "B")])]
    (List.Perm.swap (1, [("Name", "A")]) (2, [("Name", "B")]) [])
    (List.Perm.refl _)).1

/-- C2 counterexample: permuting the two input rows does not merely permute
the cards — the card built from the row named "B" keeps its row-derived
data but changes content, because its `metadata.csv_row_index` becomes its
new position (2 in the original order, 1 after the swap). -/
theorem permuting_rows_changes_card_content :
    ((process_rows_parallel trivial_geo null_analyze no_crash "t"
        (indexed_rows [[("Name", "A")], [("Name", "B")]]))[1]?).map
      (fun c => c.ey_file_data) = some (extract_ey_data [("Name", "B")]) ∧
    ((process_rows_parallel trivial_geo null_analyze no_crash "t"
        (indexed_rows [[("Name", "B")], [("Name", "A")]]))[0]?).map
      (fun c => c.ey_file_data) = some (extract_ey_data [("Name", "B")]) ∧
    ((process_rows_parallel trivial_geo null_analyze no_crash "t"
        (indexed_rows [[("Name", "A")], [("Name", "B")]]))[1]?).map
      (fun c => c.metadata.csv_row_index) = some 2 ∧
    ((process_rows_parallel trivial_geo null_analyze no_crash "t"
        (indexed_rows [[("Name", "B")], [("Name", "A")]]))[0]?).map
      (fun c => c.metadata.csv_row_index) = some 1 ∧
    (process_rows_parallel trivial_geo null_analyze no_crash "t"
        (indexed_rows [[("Name", "A")], [("Name", "B")]]))[1]? ≠
      (process_rows_parallel trivial_geo null_analyze no_crash "t"
        (indexed_rows [[("Name", "B")], [("Name", "A")]]))[0]? := by
  rw [process_rows_parallel_eq_map trivial_geo null_analyze no_crash "t"
    [[("Name", "A")], [("Name", "B")]] _ (List.Perm.refl _)]
  rw [process_rows_parallel_eq_map trivial_geo null_analyze no_crash "t"
    [[("Name", "B")], [("Name", "A")]] _ (List.Perm.refl _)]
  refine ⟨rfl, rfl, rfl, rfl, ?_⟩
  intro h
  have h2 := congrArg (Option.map (fun c : BattleCard => c.metadata.csv_row_index)) h
  have e1 : (((indexed_rows [[("Name", "A")], [("Name", "B")]]).map
      (fun p => (run_row_task trivial_geo null_analyze no_crash "t" p).2))[1]?).map
      (fun c : BattleCard => c.metadata.csv_row_index) = some 2 := rfl
  have e2 : (((indexed_rows [[("Name", "B")], [("Name", "A")]]).map
      (fun p => (run_row_task trivial_geo null_analyze no_crash "t" p).2))[0]?).map
      (fun c : BattleCard => c.metadata.csv_row_index) = some 1 := rfl
  rw [e1, e2] at h2
  simp at h2

/-- Helper: one `_track_tokens` accumulation adds exactly the response's
reported input tokens to the running input total. -/
theorem track_tokens_input_eq (st : LLMState) (r : GenResponse) :
    (track_tokens st r).total_input_tokens =
      st.total_input_tokens + response_input_tokens r := by
  cases h : r.usage_metadata <;> simp [track_tokens, response_input_tokens, h]

/-- Helper: one `_track_tokens` accumulation adds exactly the response's
reported output tokens to the running output total. -/
theorem track_tokens_output_eq (st : LLMState) (r : GenResponse) :
    (track_tokens st r).total_output_tokens =
      st.total_output_tokens + response_output_tokens r := by
  cases h : r.usage_metadata <;> simp [track_tokens, response_output_tokens, h]

/-- Helper: the accumulation steps of `_track_tokens` commute with each
other (they are pure additions), which is what makes the lock-protected
increments order-insensitive. -/
instance : RightCommutative track_tokens :=
  ⟨fun st a b => by
    cases ha : a.usage_metadata <;> cases hb : b.usage_metadata <;>
      (simp [track_tokens, ha, hb, LLMState.mk.injEq]; try omega)⟩

/-- Helper: running input total after a sequence of accumulations. -/
theorem foldl_track_tokens_input (rs : List GenResponse) (st : LLMState) :
    (rs.foldl track_tokens st).total_input_tokens =
      st.total_input_tokens + (rs.map response_input_tokens).sum := by
  induction rs generalizing st with
  | nil => simp
  | cons r rs ih =>
    simp only [List.foldl_cons, List.map_cons, List.sum_cons]
    rw [ih, track_tokens_input_eq]
    omega

/-- Helper: running output total after a sequence of accumulations. -/
theorem foldl_track_tokens_output (rs : List GenResponse) (st : LLMState) :
    (rs.foldl track_tokens st).total_output_tokens =
      st.total_output_tokens + (rs.map response_output_tokens).sum := by
  induction rs generalizing st with
  | nil => simp
  | cons r rs ih =>
    simp only [List.foldl_cons, List.map_cons, List.sum_cons]
    rw [ih, track_tokens_output_eq]
    omega

/-- C9: the running token totals are the only state `_track_tokens`
touches, each accumulation is one atomic lock-protected update (modelled as
one fold step), and the steps commute; therefore, for every interleaving of
the accumulations performed by the concurrent workers (any permutation of
the multiset of generation responses), the final totals are the same and
equal the initial totals plus the sum of the token counts reported by every
generation call. -/
theorem track_tokens_totals (st : LLMState)
    (responses interleaving : List GenResponse)
    (hperm : interleaving.Perm responses) :
    interleaving.foldl track_tokens st = responses.foldl track_tokens st ∧
    (responses.foldl track_tokens st).total_input_tokens =
      st.total_input_tokens + (responses.map response_input_tokens).sum ∧
    (responses.foldl track_tokens st).total_output_tokens =
      st.total_output_tokens + (responses.map response_output_tokens).sum :=
  ⟨hperm.foldl_eq st,
   foldl_track_tokens_input responses st,
   foldl_track_tokens_output responses st⟩

/-- C9 witness: two responses (one with an absent prompt-token attribute)
accumulated in either order from zero totals give input 10, output 12. -/
theorem track_tokens_totals_witness :
    [(⟨"b", some ⟨none, some 7⟩⟩ : GenResponse), ⟨"a", some ⟨some 10, some 5⟩⟩].foldl
        track_tokens ⟨0, 0⟩ =
      [(⟨"a", some ⟨some 10, some 5⟩⟩ : GenResponse), ⟨"b", some ⟨none, some 7⟩⟩].foldl
        track_tokens ⟨0, 0⟩ ∧
    ([(⟨"a", some ⟨some 10, some 5⟩⟩ : GenResponse), ⟨"b", some ⟨none, some 7⟩⟩].foldl
        track_tokens ⟨0, 0⟩).total_input_tokens = 0 + 10 ∧
    ([(⟨"a", some ⟨some 10, some 5⟩⟩ : GenResponse), ⟨"b", some ⟨none, some 7⟩⟩].foldl
        track_tokens ⟨0, 0⟩).total_output_tokens = 0 + 12 := by
  have h := track_tokens_totals ⟨0, 0⟩
    ([⟨"a", some ⟨some 10, some 5⟩⟩, ⟨"b", some ⟨none, some 7⟩⟩] : List GenResponse)
    ([⟨"b", some ⟨none, some 7⟩⟩, ⟨"a", some ⟨some 10, some 5⟩⟩] : List GenResponse)
    (List.Perm.swap (⟨"a", some ⟨some 10, some 5⟩⟩ : GenResponse) ⟨"b", some ⟨none, some 7⟩⟩ [])
  exact ⟨h.1, h.2.1, h.2.2⟩

/-- Helper: bind on a successful `Except` computation. -/
theorem except_ok_bind_eq {α β : Type} (a : α) (f : α → Except String β) :
    (Except.ok a >>= f) = f a := rfl

/-- Helper: inverting a successful `Except` bind. -/
theorem except_bind_ok_elim {α β : Type} {x : Except String α}
    {f : α → Except String β} {b : β}
    (h : (x >>= f) = .ok b) : ∃ a, x = .ok a ∧ f a = .ok b := by
  cases x with
  | error e => exact Except.noConfusion (show (Except.error e : Except String β) = .ok b from h)
  | ok a => exact ⟨a, rfl, h⟩

/-- Helper: the summary computation succeeds exactly by running the four
raising traversals of the source in order; on success each field of the
summary is the corresponding expression of `_calculate_summary`. -/
theorem calculate_summary_destruct (cards : List BattleCard) (itok otok : Nat)
    (now : String) (s : BatchSummary)
    (h : calculate_summary cards itok otok now = .ok s) :
    ∃ all_scores scores confidences unsorted,
      cards.mapM card_score = .ok all_scores ∧
      positive_scores cards = .ok scores ∧
      positive_confidences cards = .ok confidences ∧
      positive_prospects cards = .ok unsorted ∧
      s = { total_records := cards.length,
            analyzed_records := (all_scores.filter (fun r => decide (0 < r))).length,
            skipped_records := cards.length - (all_scores.filter (fun r => decide (0 < r))).length,
            generation_date := now,
            avg_score := if scores.length ≠ 0 then py_round_to (scores.sum / (scores.length : Rat)) 1 else 0,
            avg_confidence := if confidences.length ≠ 0 then py_round_to (confidences.sum / (confidences.length : Rat)) 2 else 0,
            score_distribution :=
              [("80-100 (Excellent)", (scores.filter (fun q => decide (80 ≤ q))).length),
               ("60-79 (Good)", (scores.filter (fun q => decide (60 ≤ q ∧ q < 80))).length),
               ("40-59 (Fair)", (scores.filter (fun q => decide (40 ≤ q ∧ q < 60))).length),
               ("20-39 (Poor)", (scores.filter (fun q => decide (20 ≤ q ∧ q < 40))).length),
               ("0-19 (Disqualified)", (scores.filter (fun q => decide (q < 20))).length)],
            input_tokens := itok,
            output_tokens := otok,
            total_tokens := itok + otok,
            top_prospects := (unsorted.mergeSort (fun a b => b.score ≤ a.score)).take 20 } := by
  simp only [calculate_summary] at h
  obtain ⟨all_scores, hall, h⟩ := except_bind_ok_elim h
  obtain ⟨scores, hscores, h⟩ := except_bind_ok_elim h
  obtain ⟨confidences, hconfs, h⟩ := except_bind_ok_elim h
  obtain ⟨unsorted, huns, h⟩ := except_bind_ok_elim h
  refine ⟨all_scores, scores, confidences, unsorted, hall, hscores, hconfs, huns, ?_⟩
  injection h with h
  exact h.symm

/-- Helper: the `scores` comprehension returns exactly the positive entries
of the full score traversal, in order. -/
theorem positive_scores_filter (cards : List BattleCard) (all : List Rat)
    (hall : cards.mapM card_score = .ok all) :
    positive_scores cards = .ok (all.filter (fun r => decide (0 < r))) := by
  induction cards generalizing all with
  | nil =>
    rw [List.mapM_nil] at hall
    injection hall with hall
    subst hall
    rfl
  | cons bc rest ih =>
    rw [List.mapM_cons] at hall
    obtain ⟨q, hq, hall⟩ := except_bind_ok_elim hall
    obtain ⟨tl, htl, hall⟩ := except_bind_ok_elim hall
    injection hall with hall
    subst hall
    simp only [positive_scores, hq, except_ok_bind_eq]
    by_cases h0 : 0 < q
    · rw [if_pos h0, ih tl htl, except_ok_bind_eq,
        List.filter_cons_of_pos (by simpa using h0)]
    · rw [if_neg h0, ih tl htl, List.filter_cons_of_neg (by simpa using h0)]

/-- Helper: every entry of the full score traversal comes from a card. -/
theorem mapM_card_score_mem (cards : List BattleCard) (all : List Rat)
    (hall : cards.mapM card_score = .ok all) :
    ∀ r ∈ all, ∃ bc ∈ cards, card_score bc = .ok r := by
  induction cards generalizing all with
  | nil =>
    rw [List.mapM_nil] at hall
    injection hall with hall
    subst hall
    intro r hr
    exact absurd hr (List.not_mem_nil r)
  | cons bc rest ih =>
    rw [List.mapM_cons] at hall
    obtain ⟨q, hq, hall⟩ := except_bind_ok_elim hall
    obtain ⟨tl, htl, hall⟩ := except_bind_ok_elim hall
    injection hall with hall
    subst hall
    intro r hr
    rcases List.mem_cons.mp hr with rfl | hr
    · exact ⟨bc, List.mem_cons_self bc rest, hq⟩
    · obtain ⟨bc', hbc', hbcs⟩ := ih tl htl r hr
      exact ⟨bc', List.mem_cons_of_mem bc hbc', hbcs⟩

/-- Helper: the full score traversal has one entry per card. -/
theorem mapM_card_score_length (cards : List BattleCard) (all : List Rat)
    (hall : cards.mapM card_score = .ok all) : all.length = cards.length := by
  induction cards generalizing all with
  | nil =>
    rw [List.mapM_nil] at hall
    injection hall with hall
    subst hall
    rfl
  | cons bc rest ih =>
    rw [List.mapM_cons] at hall
    obtain ⟨q, hq, hall⟩ := except_bind_ok_elim hall
    obtain ⟨tl, htl, hall⟩ := except_bind_ok_elim hall
    injection hall with hall
    subst hall
    simp [ih tl htl]

/-- Helper: a card with a non-positive overall score contributes nothing to
the `scores` comprehension, wherever it sits in the batch. -/
theorem positive_scores_skip_zero (l₁ l₂ : List BattleCard) (z : BattleCard)
    (q : Rat) (hz : card_score z = .ok q) (hq : q ≤ 0) :
    positive_scores (l₁ ++ z :: l₂) = positive_scores (l₁ ++ l₂) := by
  induction l₁ with
  | nil =>
    simp only [List.nil_append, positive_scores, hz, except_ok_bind_eq,
      if_neg (not_lt.mpr hq)]
  | cons a l₁ ih =>
    simp only [List.cons_append, positive_scores, List.append_eq, ih]

/-- Helper: the same for the `confidences` comprehension. -/
theorem positive_confidences_skip_zero (l₁ l₂ : List BattleCard) (z : BattleCard)
    (q : Rat) (hz : card_score z = .ok q) (hq : q ≤ 0) :
    positive_confidences (l₁ ++ z :: l₂) = positive_confidences (l₁ ++ l₂) := by
  induction l₁ with
  | nil =>
    simp only [List.nil_append, positive_confidences, hz, except_ok_bind_eq,
      if_neg (not_lt.mpr hq)]
  | cons a l₁ ih =>
    simp only [List.cons_append, positive_confidences, List.append_eq, ih]

/-- Helper: the same for the `top_prospects` comprehension. -/
theorem positive_prospects_skip_zero (l₁ l₂ : List BattleCard) (z : BattleCard)
    (q : Rat) (hz : card_score z = .ok q) (hq : q ≤ 0) :
    positive_prospects (l₁ ++ z :: l₂) = positive_prospects (l₁ ++ l₂) := by
  induction l₁ with
  | nil =>
    simp only [List.nil_append, positive_prospects, hz, except_ok_bind_eq,
      if_neg (not_lt.mpr hq)]
  | cons a l₁ ih =>
    simp only [List.cons_append, positive_prospects, List.append_eq, ih]

/-- C7: `_calculate_summary` computes `avg_score`, `avg_confidence` and the
score-distribution buckets only over cards with positive overall score: a
card with `overall_score` ≤ 0 anywhere in the batch changes none of those
fields nor `top_prospects`; `analyzed_records` counts exactly the cards
with positive score, `skipped_records` is total minus that count, and when
no card has a positive score `avg_score` is 0. -/
theorem calculate_summary_positive_only
    (l₁ l₂ : List BattleCard) (z : BattleCard) (q : Rat) (itok otok : Nat)
    (now : String) (s s' : BatchSummary)
    (hz : card_score z = .ok q) (hq : q ≤ 0)
    (h : calculate_summary (l₁ ++ z :: l₂) itok otok now = .ok s)
    (h' : calculate_summary (l₁ ++ l₂) itok otok now = .ok s') :
    s.analyzed_records = s'.analyzed_records ∧
    s.avg_score = s'.avg_score ∧
    s.avg_confidence = s'.avg_confidence ∧
    s.score_distribution = s'.score_distribution ∧
    s.top_prospects = s'.top_prospects ∧
    s.total_records = s'.total_records + 1 ∧
    s.skipped_records = s'.skipped_records + 1 ∧
    s.analyzed_records + s.skipped_records = s.total_records ∧
    ((∀ bc ∈ l₁ ++ z :: l₂, ∀ r : Rat, card_score bc = .ok r → r ≤ 0) →
      s.avg_score = 0) := by
  obtain ⟨all1, sc1, cf1, un1, hall1, hsc1, hcf1, hun1, rfl⟩ :=
    calculate_summary_destruct _ itok otok now s h
  obtain ⟨all2, sc2, cf2, un2, hall2, hsc2, hcf2, hun2, rfl⟩ :=
    calculate_summary_destruct _ itok otok now s' h'
  have hsceq : sc1 = sc2 := by
    have e := positive_scores_skip_zero l₁ l₂ z q hz hq
    rw [hsc1, hsc2] at e
    exact Except.ok.inj e
  have hcfeq : cf1 = cf2 := by
    have e := positive_confidences_skip_zero l₁ l₂ z q hz hq
    rw [hcf1, hcf2] at e
    exact Except.ok.inj e
  have huneq : un1 = un2 := by
    have e := positive_prospects_skip_zero l₁ l₂ z q hz hq
    rw [hun1, hun2] at e
    exact Except.ok.inj e
  have hflt1 : sc1 = all1.filter (fun r => decide (0 < r)) := by
    have e := positive_scores_filter _ all1 hall1
    rw [hsc1] at e
    exact Except.ok.inj e
  have hflt2 : sc2 = all2.filter (fun r => decide (0 < r)) := by
    have e := positive_scores_filter _ all2 hall2
    rw [hsc2] at e
    exact Except.ok.inj e
  have hlen1 : all1.length = l₁.length + 1 + l₂.length := by
    rw [mapM_card_score_length _ all1 hall1]
    simp
    omega
  have hlen2 : all2.length = l₁.length + l₂.length := by
    rw [mapM_card_score_length _ all2 hall2]
    simp
  have hle1 : (all1.filter (fun r => decide (0 < r))).length ≤ all1.length :=
    List.length_filter_le _ _
  have hle2 : (all2.filter (fun r => decide (0 < r))).length ≤ all2.length :=
    List.length_filter_le _ _
  dsimp only
  refine ⟨?_, ?_, ?_, ?_, ?_, ?_, ?_, ?_, ?_⟩
  · rw [← hflt1, ← hflt2, hsceq]
  · rw [hsceq]
  · rw [hcfeq]
  · rw [hsceq]
  · rw [huneq]
  · simp
    omega
  · rw [← hflt1, ← hflt2, hsceq]
    have hb : sc2.length ≤ l₁.length + l₂.length := by
      rw [hflt2]
      exact hle2.trans (le_of_eq hlen2)
    simp only [List.length_append, List.length_cons]
    omega
  · simp only [List.length_append, List.length_cons]
    omega
  · intro hall_np
    have hnil : all1.filter (fun r => decide (0 < r)) = [] :=
      List.filter_eq_nil_iff.mpr (fun r hr => by
        obtain ⟨bc, hbc, hbcs⟩ := mapM_card_score_mem _ all1 hall1 r hr
        simpa using hall_np bc hbc r hbcs)
    have hsc_nil : sc1 = [] := hflt1.trans hnil
    rw [hsc_nil]
    simp

/-- C7 witness: a batch of five cards, two of them with overall score 0:
removing one zero card leaves `analyzed_records` unchanged; the summary
reports `analyzed_records` 3 and `total_records` 5. -/
theorem calculate_summary_positive_only_witness :
    Except.map (fun s => s.analyzed_records)
      (calculate_summary [sample_card "A" 10 1, sample_card "Z" 0 0,
        sample_card "ZZ" 0 0, sample_card "B" 20 (1/2), sample_card "C" 30 1] 0 0 "t") =
    Except.map (fun s => s.analyzed_records)
      (calculate_summary [sample_card "A" 10 1, sample_card "Z" 0 0,
        sample_card "B" 20 (1/2), sample_card "C" 30 1] 0 0 "t") ∧
    Except.map (fun s => s.analyzed_records)
      (calculate_summary [sample_card "A" 10 1, sample_card "Z" 0 0,
        sample_card "B" 20 (1/2), sample_card "C" 30 1] 0 0 "t") = .ok 3 ∧
    Except.map (fun s => s.total_records)
      (calculate_summary [sample_card "A" 10 1, sample_card "Z" 0 0,
        sample_card "ZZ" 0 0, sample_card "B" 20 (1/2), sample_card "C" 30 1] 0 0 "t") = .ok 5 := by
  have hm := calculate_summary_positive_only
    [sample_card "A" 10 1, sample_card "Z" 0 0]
    [sample_card "B" 20 (1/2), sample_card "C" 30 1]
    (sample_card "ZZ" 0 0) 0 0 0 "t" _ _ rfl le_rfl rfl rfl
  exact ⟨congrArg Except.ok hm.1, rfl, rfl⟩

/-- Helper: a produced top-prospects entry records exactly the card's
overall score in its `score` field. -/
theorem top_prospect_entry_score (bc : BattleCard) (p : TopProspect)
    (h : top_prospect_entry bc = .ok p) : card_score bc = .ok p.score := by
  simp only [top_prospect_entry] at h
  obtain ⟨n1, h1, h⟩ := except_bind_ok_elim h
  obtain ⟨n2, h2, h⟩ := except_bind_ok_elim h
  obtain ⟨n3, h3, h⟩ := except_bind_ok_elim h
  obtain ⟨n4, h4, h⟩ := except_bind_ok_elim h
  obtain ⟨sc, hsc, h⟩ := except_bind_ok_elim h
  obtain ⟨dc, hdc, h⟩ := except_bind_ok_elim h
  obtain ⟨cv, hcv, h⟩ := except_bind_ok_elim h
  obtain ⟨icp, hicp, h⟩ := except_bind_ok_elim h
  obtain ⟨iv, hiv, h⟩ := except_bind_ok_elim h
  obtain ⟨dc2, hdc2, h⟩ := except_bind_ok_elim h
  obtain ⟨ev, hev, h⟩ := except_bind_ok_elim h
  obtain ⟨si, hsi, h⟩ := except_bind_ok_elim h
  obtain ⟨pv, hpv, h⟩ := except_bind_ok_elim h
  injection h with h
  subst h
  exact hsc

/-- Helper: every entry of the unsorted top-prospects comprehension comes
from a card of the batch whose overall score is positive, and records that
score. -/
theorem positive_prospects_mem (cards : List BattleCard)
    (raw : List TopProspect) (h : positive_prospects cards = .ok raw) :
    ∀ p ∈ raw, 0 < p.score ∧ ∃ bc ∈ cards,
      top_prospect_entry bc = .ok p ∧ card_score bc = .ok p.score := by
  induction cards generalizing raw with
  | nil =>
    have h' : (Except.ok [] : Except String (List TopProspect)) = .ok raw := h
    injection h' with h'
    subst h'
    intro p hp
    exact absurd hp (List.not_mem_nil p)
  | cons bc rest ih =>
    simp only [positive_prospects] at h
    obtain ⟨s, hs, h⟩ := except_bind_ok_elim h
    by_cases h0 : 0 < s
    · rw [if_pos h0] at h
      obtain ⟨p0, hp0, h⟩ := except_bind_ok_elim h
      obtain ⟨ps, hps, h⟩ := except_bind_ok_elim h
      injection h with h
      subst h
      intro p hp
      rcases List.mem_cons.mp hp with rfl | hp
      · have hscore := top_prospect_entry_score bc p hp0
        have hsp : s = p.score := by
          rw [hs] at hscore
          exact Except.ok.inj hscore
        exact ⟨hsp ▸ h0, bc, List.mem_cons_self bc rest, hp0, hscore⟩
      · obtain ⟨hpos, bc', hbc', hrest⟩ := ih ps hps p hp
        exact ⟨hpos, bc', List.mem_cons_of_mem bc hbc', hrest⟩
    · rw [if_neg h0] at h
      intro p hp
      obtain ⟨hpos, bc', hbc', hrest⟩ := ih raw h p hp
      exact ⟨hpos, bc', List.mem_cons_of_mem bc hbc', hrest⟩

/-- Helper: transitivity of the descending-score comparison. -/
theorem prospect_le_trans : ∀ a b c : TopProspect,
    (fun a b : TopProspect => decide (b.score ≤ a.score)) a b →
    (fun a b : TopProspect => decide (b.score ≤ a.score)) b c →
    (fun a b : TopProspect => decide (b.score ≤ a.score)) a c := by
  intro a b c hab hbc
  simp only [decide_eq_true_eq] at *
  exact le_trans hbc hab

/-- Helper: totality of the descending-score comparison. -/
theorem prospect_le_total : ∀ a b : TopProspect,
    ((fun a b : TopProspect => decide (b.score ≤ a.score)) a b ||
     (fun a b : TopProspect => decide (b.score ≤ a.score)) b a) := by
  intro a b
  simp only [Bool.or_eq_true, decide_eq_true_eq]
  exact (le_total b.score a.score)

/-- Helper: Python's `sorted` is a stable sort, so the entries of any fixed
score keep their input order: filtering the sorted prospects at one score
value gives the same list as filtering the unsorted (input-ordered) ones. -/
theorem mergeSort_filter_stable (raw : List TopProspect) (c : Rat) :
    ((raw.mergeSort (fun a b => b.score ≤ a.score)).filter (fun p => p.score == c)) =
      raw.filter (fun p => p.score == c) := by
  have hA : (raw.filter (fun p => p.score == c)).Pairwise
      (fun a b => (fun a b : TopProspect => decide (b.score ≤ a.score)) a b = true) := by
    apply List.pairwise_of_forall_mem_list
    intro a ha b hb
    have ha' : a.score = c := by simpa using (List.mem_filter.mp ha).2
    have hb' : b.score = c := by simpa using (List.mem_filter.mp hb).2
    simp [ha', hb']
  have hsub : (raw.filter (fun p => p.score == c)).Sublist
      (raw.mergeSort (fun a b => b.score ≤ a.score)) :=
    List.sublist_mergeSort prospect_le_trans prospect_le_total hA (List.filter_sublist raw)
  have hidem : ((raw.filter (fun p => p.score == c)).filter (fun p => p.score == c)) =
      raw.filter (fun p => p.score == c) :=
    List.filter_eq_self.mpr (fun a ha => (List.mem_filter.mp ha).2)
  have hsub2 := hsub.filter (fun p => p.score == c)
  rw [hidem] at hsub2
  have hperm : ((raw.mergeSort (fun a b => b.score ≤ a.score)).filter
      (fun p => p.score == c)).Perm (raw.filter (fun p => p.score == c)) :=
    (List.mergeSort_perm raw _).filter _
  exact (hsub2.eq_of_length hperm.length_eq.symm).symm

/-- C8: the summary's `top_prospects` has length at most 20, contains only
entries derived from cards with positive overall score, is sorted in
descending score order, and is the 20-prefix of a stable descending sort of
the input-ordered positive entries — entries of equal score keep their
original input order. -/
theorem top_prospects_spec (cards : List BattleCard) (itok otok : Nat)
    (now : String) (s : BatchSummary)
    (h : calculate_summary cards itok otok now = .ok s) :
    s.top_prospects.length ≤ 20 ∧
    s.top_prospects.Pairwise (fun a b => b.score ≤ a.score) ∧
    (∀ p ∈ s.top_prospects, 0 < p.score ∧ ∃ bc ∈ cards,
      top_prospect_entry bc = .ok p ∧ card_score bc = .ok p.score) ∧
    ∃ raw, positive_prospects cards = .ok raw ∧
      s.top_prospects = (raw.mergeSort (fun a b => b.score ≤ a.score)).take 20 ∧
      ∀ c : Rat,
        (raw.mergeSort (fun a b => b.score ≤ a.score)).filter (fun p => p.score == c) =
          raw.filter (fun p => p.score == c) := by
  obtain ⟨all, sc, cf, un, hall, hsc, hcf, hun, rfl⟩ :=
    calculate_summary_destruct cards itok otok now s h
  dsimp only
  refine ⟨List.length_take_le 20 _, ?_, ?_, un, hun, rfl, fun c => mergeSort_filter_stable un c⟩
  · have hsorted := (List.sorted_mergeSort prospect_le_trans prospect_le_total un).imp
      (fun hab => of_decide_eq_true hab)
    exact hsorted.sublist (List.take_sublist 20 _)
  · intro p hp
    have hmem : p ∈ un.mergeSort (fun a b => b.score ≤ a.score) :=
      (List.take_sublist 20 _).subset hp
    have hmem2 : p ∈ un := (List.mergeSort_perm un _).subset hmem
    exact positive_prospects_mem cards un hun p hmem2

/-- C8 witness: `top_prospects_spec` applied to a concrete three-card batch
with a score tie (10, 20, 10): the list is short and sorted descending. -/
theorem top_prospects_spec_witness :
    Except.map (fun s => decide (s.top_prospects.length ≤ 20))
      (calculate_summary [sample_card "A" 10 1, sample_card "B" 20 (1/2),
        sample_card "C" 10 1] 0 0 "t") = .ok true ∧
    Except.map (fun s => decide (s.top_prospects.Pairwise (fun a b => b.score ≤ a.score)))
      (calculate_summary [sample_card "A" 10 1, sample_card "B" 20 (1/2),
        sample_card "C" 10 1] 0 0 "t") = .ok true := by
  have h := top_prospects_spec [sample_card "A" 10 1, sample_card "B" 20 (1/2),
    sample_card "C" 10 1] 0 0 "t" _ rfl
  exact ⟨congrArg Except.ok (decide_eq_true h.1),
         congrArg Except.ok (decide_eq_true h.2.1)⟩

/-- Helper: the success-path accesses of `analyze_prospect` guarantee all
key paths that the top-prospects construction reads from the analysis. -/
theorem validate_scoring_output_accesses (j : Json)
    (h : validate_scoring_output j = .ok ()) :
    ∃ v dc cv icp iv ev si pv,
      subscript j "overall_score" = .ok v ∧
      subscript j "data_confidence" = .ok dc ∧
      subscript dc "confidence_score" = .ok cv ∧
      subscript j "icp_fit" = .ok icp ∧
      subscript icp "icp_fit_score" = .ok iv ∧
      subscript dc "validated_employee_count" = .ok ev ∧
      subscript j "sales_intelligence" = .ok si ∧
      subscript si "priority_level" = .ok pv := by
  simp only [validate_scoring_output] at h
  obtain ⟨v, hv, h⟩ := except_bind_ok_elim h
  obtain ⟨dc, hdc, h⟩ := except_bind_ok_elim h
  obtain ⟨cv, hcv, h⟩ := except_bind_ok_elim h
  obtain ⟨icp, hicp, h⟩ := except_bind_ok_elim h
  obtain ⟨iv, hiv, h⟩ := except_bind_ok_elim h
  obtain ⟨dc2, hdc2, h⟩ := except_bind_ok_elim h
  obtain ⟨ev, hev, h⟩ := except_bind_ok_elim h
  have hdd : dc2 = dc := by
    rw [hdc] at hdc2
    exact (Except.ok.inj hdc2).symm
  subst hdd
  have hsipv : ∃ si pv, subscript j "sales_intelligence" = .ok si ∧
      subscript si "priority_level" = .ok pv := by
    have hrest : ∀ h' : (do
        let si ← subscript j "sales_intelligence"
        let _priority ← subscript si "priority_level"
        pure () : Except String Unit) = .ok (),
        ∃ si pv, subscript j "sales_intelligence" = .ok si ∧
          subscript si "priority_level" = .ok pv := by
      intro h'
      obtain ⟨si, hsi, h'⟩ := except_bind_ok_elim h'
      obtain ⟨pv, hpv, h'⟩ := except_bind_ok_elim h'
      exact ⟨si, pv, hsi, hpv⟩
    cases cv with
    | num a => exact hrest h
    | bool b => exact hrest h
    | null => exact (Except.noConfusion
        (show (Except.error "ValueError: Unknown format code f" : Except String Unit) = .ok () from h))
    | str a => exact (Except.noConfusion
        (show (Except.error "ValueError: Unknown format code f" : Except String Unit) = .ok () from h))
    | arr a => exact (Except.noConfusion
        (show (Except.error "ValueError: Unknown format code f" : Except String Unit) = .ok () from h))
    | obj a => exact (Except.noConfusion
        (show (Except.error "ValueError: Unknown format code f" : Except String Unit) = .ok () from h))
  obtain ⟨si, pv, hsi, hpv⟩ := hsipv
  exact ⟨v, dc2, cv, icp, iv, ev, si, pv, hv, hdc, hcv, hicp, hiv, hev, hsi, hpv⟩

/-- Helper: `analyze_prospect` either falls back or returns a document that
passed the success-path accesses. -/
theorem analyze_prospect_result_cases (env : GenEnv) (st : LLMState)
    (ey_data connectbase_data : StrDict) :
    (∃ e, (analyze_prospect env st ey_data connectbase_data).1 =
      create_fallback_analysis e) ∨
    validate_scoring_output (analyze_prospect env st ey_data connectbase_data).1 = .ok () := by
  simp only [analyze_prospect]
  split
  · exact Or.inl ⟨_, rfl⟩
  · split
    · exact Or.inl ⟨_, rfl⟩
    · split
      · exact Or.inl ⟨_, rfl⟩
      · split
        · exact Or.inl ⟨_, rfl⟩
        · rename_i x u h4
          cases u
          exact Or.inr h4

/-- Helper: a card whose analysis is the canonical fallback has overall
score exactly 0. -/
theorem card_score_of_fallback (bc : BattleCard) (e : String)
    (hllm : bc.llm_analysis = create_fallback_analysis e) :
    card_score bc = .ok 0 := by
  have hsub : subscript (create_fallback_analysis e) "overall_score" = .ok (.num 0) := rfl
  simp only [card_score, hllm, hsub, except_ok_bind_eq]
  rfl

/-- Helper: on a card shaped by `_process_single_row` whose analysis passed
the success-path accesses, every access of the top-prospects entry
construction succeeds. -/
theorem top_prospect_entry_ok (row : StrDict) (bc : BattleCard)
    (hey : bc.ey_file_data = extract_ey_data row)
    (hval : validate_scoring_output bc.llm_analysis = .ok ())
    (q : Rat) (hq : card_score bc = .ok q) :
    ∃ p, top_prospect_entry bc = .ok p := by
  obtain ⟨v, dc, cv, icp, iv, ev, si, pv, hv, hdc, hcv, hicp, hiv, hev, hsi, hpv⟩ :=
    validate_scoring_output_accesses bc.llm_analysis hval
  have hname : dict_subscript (extract_ey_data row) "Name" = .ok (sGet row "Name" "") := rfl
  have haddr : dict_subscript (extract_ey_data row) "Address" = .ok (sGet row "Address" "") := rfl
  have hcity : dict_subscript (extract_ey_data row) "City" = .ok (sGet row "City" "") := rfl
  have hstate : dict_subscript (extract_ey_data row) "State" = .ok (sGet row "State" "") := rfl
  simp only [top_prospect_entry, hey, hname, haddr, hcity, hstate, hq, hdc, hcv,
    hicp, hiv, hev, hsi, hpv, except_ok_bind_eq]
  exact ⟨_, rfl⟩

/-- Helper: when every card's overall-score comparison succeeds and every
positively scored card supports the entry construction, the whole
top-prospects comprehension succeeds. -/
theorem positive_prospects_ok (cards : List BattleCard)
    (hsc : ∀ bc ∈ cards, ∃ q : Rat, card_score bc = .ok q)
    (hent : ∀ bc ∈ cards, ∀ q : Rat, card_score bc = .ok q → 0 < q →
      ∃ p, top_prospect_entry bc = .ok p) :
    ∃ raw, positive_prospects cards = .ok raw := by
  induction cards with
  | nil => exact ⟨[], rfl⟩
  | cons bc rest ih =>
    obtain ⟨q, hq⟩ := hsc bc (List.mem_cons_self bc rest)
    obtain ⟨raw, hraw⟩ := ih
      (fun b hb => hsc b (List.mem_cons_of_mem bc hb))
      (fun b hb => hent b (List.mem_cons_of_mem bc hb))
    by_cases h0 : 0 < q
    · obtain ⟨p, hp⟩ := hent bc (List.mem_cons_self bc rest) q hq h0
      exact ⟨p :: raw, by
        simp only [positive_prospects, hq, except_ok_bind_eq, if_pos h0, hp, hraw]⟩
    · exact ⟨raw, by
        simp only [positive_prospects, hq, except_ok_bind_eq, if_neg h0, hraw]⟩

/-- C10: every synthetic battle card substituted for a failed row task
carries the fallback analysis with overall score 0, so the
`overall_score > 0` filters of `_calculate_summary` always exclude it; a
card that does pass the positive filter is a `_process_single_row` product,
whose `ey_file_data` contains the Name, Address, City, State and Network
Build Status keys and whose analysis supports every access of the
top-prospects entry construction — hence that construction never evaluates
a missing key, and succeeds whenever the score comparisons themselves do. -/
theorem synthetic_cards_safe_for_top_prospects
    (genv : GenEnv) (st : LLMState)
    (geo : String → String → String → String → HttpOutcome)
    (crash : Nat → StrDict → Option String) (now : String)
    (rows : List StrDict) (order : List (Nat × StrDict))
    (hperm : order.Perm (indexed_rows rows)) :
    (∀ e idx, card_score (synthetic_failed_card e now idx) = .ok 0) ∧
    (∀ bc ∈ process_rows_parallel geo
        (fun e c => (analyze_prospect genv st e c).1) crash now order,
      ∀ q : Rat, card_score bc = .ok q → 0 < q →
        (bc.ey_file_data.lookup "Name").isSome ∧
        (bc.ey_file_data.lookup "Address").isSome ∧
        (bc.ey_file_data.lookup "City").isSome ∧
        (bc.ey_file_data.lookup "State").isSome ∧
        (bc.ey_file_data.lookup "Network Build Status").isSome ∧
        ∃ p, top_prospect_entry bc = .ok p) ∧
    ((∀ bc ∈ process_rows_parallel geo
        (fun e c => (analyze_prospect genv st e c).1) crash now order,
        ∃ q : Rat, card_score bc = .ok q) →
      ∃ raw, positive_prospects (process_rows_parallel geo
        (fun e c => (analyze_prospect genv st e c).1) crash now order) = .ok raw) := by
  have hmain : ∀ bc ∈ process_rows_parallel geo
      (fun e c => (analyze_prospect genv st e c).1) crash now order,
      ∀ q : Rat, card_score bc = .ok q → 0 < q →
        (bc.ey_file_data.lookup "Name").isSome ∧
        (bc.ey_file_data.lookup "Address").isSome ∧
        (bc.ey_file_data.lookup "City").isSome ∧
        (bc.ey_file_data.lookup "State").isSome ∧
        (bc.ey_file_data.lookup "Network Build Status").isSome ∧
        ∃ p, top_prospect_entry bc = .ok p := by
    intro bc hbc q hq h0
    rw [process_rows_parallel_eq_map geo _ crash now rows order hperm] at hbc
    obtain ⟨p, hp, rfl⟩ := List.mem_map.mp hbc
    cases hc : crash p.1 p.2 with
    | some e =>
      have hbs : run_row_task geo (fun e c => (analyze_prospect genv st e c).1) crash now p =
          (p.1, synthetic_failed_card e now p.1) := by
        simp [run_row_task, hc]
      rw [hbs] at hq
      have h00 : card_score (synthetic_failed_card e now p.1) = .ok 0 := rfl
      rw [h00] at hq
      have h0q : (0 : Rat) = q := Except.ok.inj hq
      exact absurd (h0q ▸ h0) (lt_irrefl q)
    | none =>
      have hbs : run_row_task geo (fun e c => (analyze_prospect genv st e c).1) crash now p =
          process_single_row geo (fun e c => (analyze_prospect genv st e c).1) now p := by
        simp [run_row_task, hc]
      rw [hbs] at hq ⊢
      have hey : (process_single_row geo (fun e c => (analyze_prospect genv st e c).1) now p).2.ey_file_data =
          extract_ey_data p.2 := rfl
      have hllm : (process_single_row geo (fun e c => (analyze_prospect genv st e c).1) now p).2.llm_analysis =
          (analyze_prospect genv st (extract_ey_data p.2) (extract_connectbase_data p.2)).1 := rfl
      refine ⟨by rw [hey]; rfl, by rw [hey]; rfl, by rw [hey]; rfl, by rw [hey]; rfl,
        by rw [hey]; rfl, ?_⟩
      rcases analyze_prospect_result_cases genv st (extract_ey_data p.2)
          (extract_connectbase_data p.2) with ⟨e, hfb⟩ | hval
      · have h00 := card_score_of_fallback _ e (hllm.trans hfb)
        rw [h00] at hq
        have h0q : (0 : Rat) = q := Except.ok.inj hq
        exact absurd (h0q ▸ h0) (lt_irrefl q)
      · exact top_prospect_entry_ok p.2 _ hey (hllm ▸ hval) q hq
  refine ⟨fun e idx => rfl, hmain, ?_⟩
  intro hsc
  exact positive_prospects_ok _ hsc
    (fun bc hbc q hq h0 => (hmain bc hbc q hq h0).2.2.2.2.2)

/-- C10 witness: a one-row batch whose task raises — the synthetic card has
score 0 and the top-prospects comprehension over the output succeeds,
producing the empty list. -/
theorem synthetic_cards_safe_for_top_prospects_witness :
    card_score (synthetic_failed_card "boom" "t" 1) = .ok 0 ∧
    positive_prospects (process_rows_parallel trivial_geo
      (fun e c => (analyze_prospect (fixed_response_env "" (.error "x")) ⟨0, 0⟩ e c).1)
      (fun _ _ => some "boom") "t" (indexed_rows [[("Name", "A")]])) = .ok [] := by
  have h := synthetic_cards_safe_for_top_prospects
    (fixed_response_env "" (.error "x")) ⟨0, 0⟩ trivial_geo
    (fun _ _ => some "boom") "t" [[("Name", "A")]]
    (indexed_rows [[("Name", "A")]]) (List.Perm.refl _)
  refine ⟨h.1 "boom" 1, ?_⟩
  rw [process_rows_parallel_eq_map trivial_geo
    (fun e c => (analyze_prospect (fixed_response_env "" (.error "x")) ⟨0, 0⟩ e c).1)
    (fun _ _ => some "boom") "t" [[("Name", "A")]]
    (indexed_rows [[("Name", "A")]]) (List.Perm.refl _)]
  rfl
